import Mathlib

/-
  Formal model of the backtester engine (src/src-tauri/src/engine) in Lean 4.

  Modelling conventions:
  * Rust f64 values are modelled as exact rationals (ℚ).  Arithmetic that the
    source performs on f64 is performed exactly; NaN-able arrays are modelled
    as lists of `Option ℚ` with `none` standing for NaN.
  * Rust structs and enums are translated field by field.  The Candle field
    named open in Rust is called open_ here because open is a Lean keyword.
  * Functions that mutate a struct through a mutable reference are translated
    to functions returning the updated struct.
  * Calls to the thread-local random number generator and to the UUID
    generator are made explicit: the corresponding functions receive the drawn
    value as an extra argument, and the whole-backtest driver receives oracle
    streams for those draws.
  * Some metric fields whose Rust names end in ..._ratio are renamed without
    that suffix (sharpe, sortino, calmar, return_dd).
-/

namespace Backtester

/-- Machine epsilon of f64, an exact rational (2 to the power minus 52). -/
def f64Epsilon : ℚ := 1 / 4503599627370496

/-- Absolute value on ℚ written as the executable branch of f64::abs (the
Mathlib lattice abs does not reduce in the kernel). -/
def qAbs (q : ℚ) : ℚ := if q < 0 then -q else q

/-- Maximum on ℚ written as the executable branch of f64::max. -/
def qMax (a b : ℚ) : ℚ := if a < b then b else a

/-- Minimum on ℚ written as the executable branch of f64::min. -/
def qMin (a b : ℚ) : ℚ := if b < a then b else a

-- ══════════════════════════════════════════════════════════════
-- models/strategy.rs, models/config.rs, models/trade.rs, models/candle.rs
-- ══════════════════════════════════════════════════════════════

/-- models/strategy.rs TradeDirection. -/
inductive TradeDirection
  | long
  | short
  | both
deriving DecidableEq, Repr

/-- models/trade.rs CloseReason. -/
inductive CloseReason
  | signal
  | stopLoss
  | takeProfit
  | trailingStop
  | endOfData
  | timeClose
deriving DecidableEq, Repr

/-- models/strategy.rs CommissionType. -/
inductive CommissionType
  | percentage
  | fixedPerLot
deriving DecidableEq, Repr

/-- models/strategy.rs TradingCosts. -/
structure TradingCosts where
  spread_pips : ℚ
  commission_type : CommissionType
  commission_value : ℚ
  slippage_pips : ℚ
  slippage_random : Bool
deriving DecidableEq, Repr

/-- models/config.rs InstrumentConfig. -/
structure InstrumentConfig where
  pip_size : ℚ
  pip_value : ℚ
  lot_size : ℚ
  min_lot : ℚ
  tick_size : ℚ
  digits : Nat
deriving DecidableEq, Repr

/-- models/config.rs Timeframe. -/
inductive Timeframe
  | tick
  | m1
  | m5
  | m15
  | m30
  | h1
  | h4
  | d1
deriving DecidableEq, Repr

/-- models/config.rs Timeframe::minutes. -/
def Timeframe.minutes : Timeframe → Nat
  | .tick => 0
  | .m1 => 1
  | .m5 => 5
  | .m15 => 15
  | .m30 => 30
  | .h1 => 60
  | .h4 => 240
  | .d1 => 1440

/-- models/strategy.rs PositionSizingType. -/
inductive PositionSizingType
  | fixedLots
  | fixedAmount
  | percentEquity
  | riskBased
deriving DecidableEq, Repr

/-- models/strategy.rs PositionSizing. -/
structure PositionSizing where
  sizing_type : PositionSizingType
  value : ℚ
deriving DecidableEq, Repr

/-- models/strategy.rs StopLossType. -/
inductive StopLossType
  | pips
  | percentage
  | atr
deriving DecidableEq, Repr

/-- models/strategy.rs StopLoss. -/
structure StopLoss where
  sl_type : StopLossType
  value : ℚ
  atr_period : Option Nat
deriving DecidableEq, Repr

/-- models/strategy.rs TakeProfitType. -/
inductive TakeProfitType
  | pips
  | riskReward
  | atr
deriving DecidableEq, Repr

/-- models/strategy.rs TakeProfit. -/
structure TakeProfit where
  tp_type : TakeProfitType
  value : ℚ
  atr_period : Option Nat
deriving DecidableEq, Repr

/-- models/strategy.rs TrailingStopType. -/
inductive TrailingStopType
  | atr
  | riskReward
deriving DecidableEq, Repr

/-- models/strategy.rs TrailingStop. -/
structure TrailingStop where
  ts_type : TrailingStopType
  value : ℚ
  atr_period : Option Nat
deriving DecidableEq, Repr

/-- models/candle.rs Candle.  The Rust field named open is called open_ here. -/
structure Candle where
  timestamp : Int
  datetime : String
  open_ : ℚ
  high : ℚ
  low : ℚ
  close : ℚ
  volume : ℚ
deriving DecidableEq, Repr

/-- models/candle.rs TickColumns (struct-of-arrays tick batch). -/
structure TickColumns where
  timestamps : List Int
  bids : List ℚ
  asks : List ℚ
deriving DecidableEq, Repr

/-- models/candle.rs TickColumns::len. -/
def TickColumns.len (t : TickColumns) : Nat := t.timestamps.length

/-- models/trade.rs TradeResult. -/
structure TradeResult where
  id : String
  direction : TradeDirection
  entry_time : String
  entry_price : ℚ
  exit_time : String
  exit_price : ℚ
  lots : ℚ
  pnl : ℚ
  pnl_pips : ℚ
  commission : ℚ
  close_reason : CloseReason
  duration_bars : Nat
  duration_time : String
  mae : ℚ
  mfe : ℚ
deriving DecidableEq, Repr

-- ══════════════════════════════════════════════════════════════
-- engine/position.rs
-- ══════════════════════════════════════════════════════════════

/-- engine/position.rs OpenPosition. -/
structure OpenPosition where
  direction : TradeDirection
  entry_price : ℚ
  entry_bar : Nat
  entry_time : String
  lots : ℚ
  stop_loss : Option ℚ
  take_profit : Option ℚ
  trailing_stop_distance : Option ℚ
  highest_since_entry : ℚ
  lowest_since_entry : ℚ
  mae_pips : ℚ
  mfe_pips : ℚ
deriving DecidableEq, Repr

/-- engine/position.rs calculate_lots.  The inner `Sum` mirrors the control
flow of the source: `.inl` is an early `return instrument.min_lot` that skips
the final flooring and clamping, `.inr raw` falls through to it.  Division by
zero on ℚ yields 0, which lands in the same `min_lot` result as the f64
infinity path of the source. -/
def calculate_lots (sizing : PositionSizing) (equity entry_price : ℚ)
    (sl_price : Option ℚ) (instrument : InstrumentConfig) : ℚ :=
  let step : Sum ℚ ℚ :=
    match sizing.sizing_type with
    | .fixedLots => .inr sizing.value
    | .fixedAmount =>
      match sl_price with
      | some sl =>
        let sl_distance_pips := qAbs (entry_price - sl) / instrument.pip_size
        if sl_distance_pips = 0 ∨ instrument.pip_value = 0 then
          .inl instrument.min_lot
        else
          .inr (sizing.value / (sl_distance_pips * instrument.pip_value))
      | none => .inr instrument.min_lot
    | .percentEquity =>
      match sl_price with
      | some sl =>
        let sl_distance_pips := qAbs (entry_price - sl) / instrument.pip_size
        if sl_distance_pips = 0 ∨ instrument.pip_value = 0 then
          .inl instrument.min_lot
        else
          let risk_amount := equity * sizing.value / 100
          .inr (risk_amount / (sl_distance_pips * instrument.pip_value))
      | none => .inr instrument.min_lot
    | .riskBased =>
      match sl_price with
      | some sl =>
        let sl_distance_pips := qAbs (entry_price - sl) / instrument.pip_size
        if sl_distance_pips = 0 ∨ instrument.pip_value = 0 then
          .inl instrument.min_lot
        else
          let risk_amount := equity * sizing.value / 100
          .inr (risk_amount / (sl_distance_pips * instrument.pip_value))
      | none => .inr instrument.min_lot
  match step with
  | .inl early => early
  | .inr raw =>
    let lots := (⌊raw / instrument.min_lot⌋ : ℚ) * instrument.min_lot
    qMax lots instrument.min_lot

/-- engine/position.rs calculate_stop_loss. -/
def calculate_stop_loss (config : StopLoss) (entry_price : ℚ)
    (direction : TradeDirection) (atr_value : Option ℚ)
    (instrument : InstrumentConfig) : ℚ :=
  let distance :=
    match config.sl_type with
    | .pips => config.value * instrument.pip_size
    | .percentage => entry_price * config.value / 100
    | .atr => (atr_value.getD 0) * config.value
  match direction with
  | .long | .both => entry_price - distance
  | .short => entry_price + distance

/-- engine/position.rs calculate_take_profit. -/
def calculate_take_profit (config : TakeProfit) (entry_price : ℚ)
    (sl_price : Option ℚ) (direction : TradeDirection) (atr_value : Option ℚ)
    (instrument : InstrumentConfig) : ℚ :=
  let distance :=
    match config.tp_type with
    | .pips => config.value * instrument.pip_size
    | .riskReward =>
      match sl_price with
      | some sl => qAbs (entry_price - sl) * config.value
      | none => config.value * instrument.pip_size * 10
    | .atr => (atr_value.getD 0) * config.value
  match direction with
  | .long | .both => entry_price + distance
  | .short => entry_price - distance

/-- engine/position.rs calculate_trailing_stop_distance. -/
def calculate_trailing_stop_distance (config : TrailingStop) (entry_price : ℚ)
    (sl_price : Option ℚ) (atr_value : Option ℚ)
    (instrument : InstrumentConfig) : ℚ :=
  match config.ts_type with
  | .atr => (atr_value.getD 0) * config.value
  | .riskReward =>
    match sl_price with
    | some sl => qAbs (entry_price - sl) * config.value
    | none => config.value * instrument.pip_size * 10

/-- engine/position.rs update_trailing_stop (mutation modelled as returning
the updated position). -/
def update_trailing_stop (position : OpenPosition) (candle : Candle) :
    OpenPosition :=
  match position.trailing_stop_distance with
  | none => position
  | some distance =>
    match position.direction with
    | .long | .both =>
      if candle.high > position.highest_since_entry then
        let highest := candle.high
        let new_sl := highest - distance
        let sl :=
          match position.stop_loss with
          | some sl => if new_sl > sl then some new_sl else some sl
          | none => some new_sl
        { position with highest_since_entry := highest, stop_loss := sl }
      else position
    | .short =>
      if candle.low < position.lowest_since_entry then
        let lowest := candle.low
        let new_sl := lowest + distance
        let sl :=
          match position.stop_loss with
          | some sl => if new_sl < sl then some new_sl else some sl
          | none => some new_sl
        { position with lowest_since_entry := lowest, stop_loss := sl }
      else position

/-- engine/position.rs check_stop_loss.  SL is a stop-market order:
gap-through fills at the open. -/
def check_stop_loss (pos : OpenPosition) (candle : Candle) :
    Option (ℚ × CloseReason) :=
  match pos.stop_loss with
  | none => none
  | some sl =>
    match pos.direction with
    | .long | .both =>
      if candle.low ≤ sl then
        let fill := if candle.open_ ≤ sl then candle.open_ else sl
        some (fill, .stopLoss)
      else none
    | .short =>
      if candle.high ≥ sl then
        let fill := if candle.open_ ≥ sl then candle.open_ else sl
        some (fill, .stopLoss)
      else none

/-- engine/position.rs check_take_profit.  TP is a limit order: always fills
at the TP level. -/
def check_take_profit (pos : OpenPosition) (candle : Candle) :
    Option (ℚ × CloseReason) :=
  match pos.take_profit with
  | none => none
  | some tp =>
    match pos.direction with
    | .long | .both =>
      if candle.high ≥ tp then some (tp, .takeProfit) else none
    | .short =>
      if candle.low ≤ tp then some (tp, .takeProfit) else none

/-- engine/position.rs check_sl_tp_hit.  When both SL and TP trigger on the
same candle, the level whose fill price is closer to the open wins. -/
def check_sl_tp_hit (position : OpenPosition) (candle : Candle) :
    Option (ℚ × CloseReason) :=
  let sl_result := check_stop_loss position candle
  let tp_result := check_take_profit position candle
  match sl_result, tp_result with
  | none, none => none
  | some sl, none => some sl
  | none, some tp => some tp
  | some (sl_fill, _), some (tp_fill, _) =>
    let dist_sl := qAbs (candle.open_ - sl_fill)
    let dist_tp := qAbs (candle.open_ - tp_fill)
    if dist_sl ≤ dist_tp then some (sl_fill, .stopLoss)
    else some (tp_fill, .takeProfit)

/-- engine/position.rs check_tick_stop_loss. -/
def check_tick_stop_loss (pos : OpenPosition) (bid ask : ℚ) :
    Option (ℚ × CloseReason) :=
  match pos.stop_loss with
  | none => none
  | some sl =>
    match pos.direction with
    | .long | .both =>
      if bid ≤ sl then some (bid, .stopLoss) else none
    | .short =>
      if ask ≥ sl then some (ask, .stopLoss) else none

/-- engine/position.rs check_tick_take_profit. -/
def check_tick_take_profit (pos : OpenPosition) (bid ask : ℚ) :
    Option (ℚ × CloseReason) :=
  match pos.take_profit with
  | none => none
  | some tp =>
    match pos.direction with
    | .long | .both =>
      if bid ≥ tp then some (tp, .takeProfit) else none
    | .short =>
      if ask ≤ tp then some (tp, .takeProfit) else none

/-- engine/position.rs check_tick_sl_tp.  Both hit on the same tick: the SL
(stop order) takes priority. -/
def check_tick_sl_tp (pos : OpenPosition) (bid ask : ℚ) :
    Option (ℚ × CloseReason) :=
  let sl_result := check_tick_stop_loss pos bid ask
  let tp_result := check_tick_take_profit pos bid ask
  match sl_result, tp_result with
  | none, none => none
  | some sl, none => some sl
  | none, some tp => some tp
  | some sl, some _ => some sl

/-- engine/position.rs update_trailing_stop_tick. -/
def update_trailing_stop_tick (pos : OpenPosition) (bid ask : ℚ) :
    OpenPosition :=
  match pos.trailing_stop_distance with
  | none => pos
  | some distance =>
    match pos.direction with
    | .long | .both =>
      if bid > pos.highest_since_entry then
        let new_sl := bid - distance
        let sl :=
          match pos.stop_loss with
          | some sl => if new_sl > sl then some new_sl else some sl
          | none => some new_sl
        { pos with highest_since_entry := bid, stop_loss := sl }
      else pos
    | .short =>
      if ask < pos.lowest_since_entry then
        let new_sl := ask + distance
        let sl :=
          match pos.stop_loss with
          | some sl => if new_sl < sl then some new_sl else some sl
          | none => some new_sl
        { pos with lowest_since_entry := ask, stop_loss := sl }
      else pos

/-- engine/position.rs update_mae_mfe_tick. -/
def update_mae_mfe_tick (pos : OpenPosition) (bid ask : ℚ)
    (instrument : InstrumentConfig) : OpenPosition :=
  match pos.direction with
  | .long | .both =>
    let adverse := (pos.entry_price - bid) / instrument.pip_size
    let favorable := (bid - pos.entry_price) / instrument.pip_size
    { pos with
      mae_pips := if adverse > pos.mae_pips then adverse else pos.mae_pips
      mfe_pips := if favorable > pos.mfe_pips then favorable else pos.mfe_pips }
  | .short =>
    let adverse := (ask - pos.entry_price) / instrument.pip_size
    let favorable := (pos.entry_price - ask) / instrument.pip_size
    { pos with
      mae_pips := if adverse > pos.mae_pips then adverse else pos.mae_pips
      mfe_pips := if favorable > pos.mfe_pips then favorable else pos.mfe_pips }

/-- engine/position.rs update_mae_mfe (candle-level). -/
def update_mae_mfe (position : OpenPosition) (candle : Candle)
    (instrument : InstrumentConfig) : OpenPosition :=
  match position.direction with
  | .long | .both =>
    let adverse := (position.entry_price - candle.low) / instrument.pip_size
    let favorable := (candle.high - position.entry_price) / instrument.pip_size
    { position with
      mae_pips := if adverse > position.mae_pips then adverse else position.mae_pips
      mfe_pips := if favorable > position.mfe_pips then favorable else position.mfe_pips }
  | .short =>
    let adverse := (candle.high - position.entry_price) / instrument.pip_size
    let favorable := (position.entry_price - candle.low) / instrument.pip_size
    { position with
      mae_pips := if adverse > position.mae_pips then adverse else position.mae_pips
      mfe_pips := if favorable > position.mfe_pips then favorable else position.mfe_pips }

-- ══════════════════════════════════════════════════════════════
-- engine/orders.rs
-- ══════════════════════════════════════════════════════════════

/-- engine/orders.rs apply_entry_costs.  The source draws
rand::random::<f64>() when slippage_random is set; that draw is made explicit
as the random_factor argument (a value in the unit interval). -/
def apply_entry_costs (price : ℚ) (direction : TradeDirection)
    (costs : TradingCosts) (instrument : InstrumentConfig)
    (random_factor : ℚ) : ℚ :=
  let spread := costs.spread_pips * instrument.pip_size
  let slippage :=
    if costs.slippage_random then
      costs.slippage_pips * instrument.pip_size * random_factor
    else
      costs.slippage_pips * instrument.pip_size
  match direction with
  | .long | .both => price + spread + slippage
  | .short => price - spread - slippage

/-- engine/orders.rs calculate_pnl_pips. -/
def calculate_pnl_pips (direction : TradeDirection)
    (entry_price exit_price : ℚ) (instrument : InstrumentConfig) : ℚ :=
  if instrument.pip_size = 0 then 0
  else
    match direction with
    | .long | .both => (exit_price - entry_price) / instrument.pip_size
    | .short => (entry_price - exit_price) / instrument.pip_size

/-- engine/orders.rs calculate_pnl. -/
def calculate_pnl (direction : TradeDirection) (entry_price exit_price lots : ℚ)
    (instrument : InstrumentConfig) : ℚ :=
  let pnl_pips := calculate_pnl_pips direction entry_price exit_price instrument
  pnl_pips * instrument.pip_value * lots

/-- engine/orders.rs calculate_commission. -/
def calculate_commission (costs : TradingCosts) (lots entry_price : ℚ)
    (instrument : InstrumentConfig) : ℚ :=
  match costs.commission_type with
  | .fixedPerLot => costs.commission_value * lots
  | .percentage =>
    let position_value := entry_price * lots * instrument.lot_size
    position_value * costs.commission_value / 100

/-- Modelled from the spec: orders::apply_exit_costs is called by
executor.rs close_position with the comment (slippage on exit) but its body
is not present under src/.  Following the spec cost model
(spread_pips, slippage_pips, slippage_random in TradingCosts; costs always
worsen the fill), the exit price is worsened by the slippage amount, with the
random draw explicit as for apply_entry_costs: a long exit sells lower, a
short exit buys higher. -/
def apply_exit_costs (price : ℚ) (direction : TradeDirection)
    (costs : TradingCosts) (instrument : InstrumentConfig)
    (random_factor : ℚ) : ℚ :=
  let slippage :=
    if costs.slippage_random then
      costs.slippage_pips * instrument.pip_size * random_factor
    else
      costs.slippage_pips * instrument.pip_size
  match direction with
  | .long | .both => price - slippage
  | .short => price + slippage

-- ══════════════════════════════════════════════════════════════
-- errors.rs (the constructors reachable from the modelled engine code)
-- ══════════════════════════════════════════════════════════════

/-- errors.rs AppError, restricted to the constructors the modelled engine
code can produce. -/
inductive AppError
  | csvValidation (msg : String)
  | backtestCancelled
  | noDataInRange
  | insufficientData (needed available : Nat)
  | invalidIndicatorParams (msg : String)
  | optimizationError (msg : String)
  | optimizationCancelled
  | tooManyCombinations (count limit : Nat)
  | internal (msg : String)
deriving DecidableEq, Repr

-- ══════════════════════════════════════════════════════════════
-- engine/indicators.rs (the kinds reached by the claims:
-- SMA, EMA, RSI, ATR, Stochastic, CCI out of the 40-variant enum)
-- ══════════════════════════════════════════════════════════════

/-- Sum of a list of rationals (Rust iter().sum()). -/
def qsum (l : List ℚ) : ℚ := l.foldl (· + ·) 0

/-- Maximum of a list of rationals.  The source folds f64::max starting from
NEG_INFINITY; on the nonempty windows it is applied to this equals the list
maximum, and the empty case is never reached. -/
def listMax (l : List ℚ) : ℚ :=
  match l with
  | [] => 0
  | x :: xs => xs.foldl qMax x

/-- Minimum of a list of rationals (source folds f64::min from INFINITY). -/
def listMin (l : List ℚ) : ℚ :=
  match l with
  | [] => 0
  | x :: xs => xs.foldl qMin x

/-- models/strategy.rs IndicatorType, restricted to the modelled kinds. -/
inductive IndicatorType
  | sma
  | ema
  | rsi
  | atr
  | stochastic
  | cci
deriving DecidableEq, Repr

/-- Debug-format name of an indicator kind, as used by cache_key. -/
def indicatorTypeName : IndicatorType → String
  | .sma => "SMA"
  | .ema => "EMA"
  | .rsi => "RSI"
  | .atr => "ATR"
  | .stochastic => "Stochastic"
  | .cci => "CCI"

/-- models/strategy.rs IndicatorParams. -/
structure IndicatorParams where
  period : Option Nat := none
  fast_period : Option Nat := none
  slow_period : Option Nat := none
  signal_period : Option Nat := none
  std_dev : Option ℚ := none
  k_period : Option Nat := none
  d_period : Option Nat := none
  acceleration_factor : Option ℚ := none
  maximum_factor : Option ℚ := none
  gamma : Option ℚ := none
  multiplier : Option ℚ := none
deriving DecidableEq, Repr

/-- models/strategy.rs IndicatorConfig. -/
structure IndicatorConfig where
  indicator_type : IndicatorType
  params : IndicatorParams
  output_field : Option String
deriving DecidableEq, Repr

/-- Round a rational to the nearest integer, ties to even (the rounding used
when Rust formats an f64 with a fixed precision). -/
def roundHalfEven (q : ℚ) : ℤ :=
  let fl := ⌊q⌋
  let fr := q - fl
  if fr > 1 / 2 then fl + 1
  else if fr < 1 / 2 then fl
  else if fl % 2 = 0 then fl else fl + 1

/-- Left-pad a string with zeros to the given length. -/
def padZeros (s : String) (k : Nat) : String :=
  String.mk (List.replicate (k - s.length) '0') ++ s

/-- Fixed-precision decimal rendering of a rational, mirroring the Rust
format specifier with a given number of fraction digits. -/
def fixedFmt (q : ℚ) (digits : Nat) : String :=
  let scaled : ℤ := roundHalfEven (q * (10 : ℚ) ^ digits)
  let sign := if scaled < 0 then "-" else ""
  let a := scaled.natAbs
  if digits = 0 then sign ++ toString a
  else
    sign ++ toString (a / 10 ^ digits) ++ "." ++
      padZeros (toString (a % 10 ^ digits)) digits

/-- models/strategy.rs IndicatorConfig::cache_key: fingerprint over the
non-null parameters; output_field is excluded. -/
def IndicatorConfig.cache_key (c : IndicatorConfig) : String :=
  let part := fun (tag : String) (v : Option Nat) =>
    match v with
    | some p => tag ++ toString p
    | none => ""
  let fpart := fun (tag : String) (v : Option ℚ) (d : Nat) =>
    match v with
    | some x => tag ++ fixedFmt x d
    | none => ""
  indicatorTypeName c.indicator_type
    ++ part "_p" c.params.period
    ++ part "_fp" c.params.fast_period
    ++ part "_sp" c.params.slow_period
    ++ part "_sig" c.params.signal_period
    ++ fpart "_sd" c.params.std_dev 2
    ++ part "_kp" c.params.k_period
    ++ part "_dp" c.params.d_period
    ++ fpart "_af" c.params.acceleration_factor 4
    ++ fpart "_mf" c.params.maximum_factor 4
    ++ fpart "_g" c.params.gamma 4
    ++ fpart "_mul" c.params.multiplier 2

/-- engine/indicators.rs IndicatorOutput.  Arrays that may contain NaN are
lists of Option ℚ with none standing for NaN. -/
structure IndicatorOutput where
  primary : List (Option ℚ)
  secondary : Option (List (Option ℚ))
  tertiary : Option (List (Option ℚ))
  extra : Option (List (String × List (Option ℚ)))
deriving DecidableEq, Repr

/-- engine/indicators.rs sma.  The running sum of the source equals the
window sum exactly over ℚ. -/
def sma (data : List ℚ) (period : Nat) : List (Option ℚ) :=
  let len := data.length
  if period = 0 ∨ len < period then List.replicate len none
  else
    (List.range len).map (fun i =>
      if i + 1 < period then none
      else some (qsum ((data.drop (i + 1 - period)).take period) / period))

/-- Tail recursion of engine/indicators.rs ema: each value is
(x - prev) * multiplier + prev. -/
def emaGo (mult : ℚ) (prev : ℚ) : List ℚ → List ℚ
  | [] => []
  | x :: rest =>
    let v := (x - prev) * mult + prev
    v :: emaGo mult v rest

/-- engine/indicators.rs ema: NaN before index period - 1, seeded with the
simple average of the first period values. -/
def ema (data : List ℚ) (period : Nat) : List (Option ℚ) :=
  let len := data.length
  if period = 0 ∨ len < period then List.replicate len none
  else
    let mult := 2 / ((period : ℚ) + 1)
    let seed := qsum (data.take period) / period
    List.replicate (period - 1) none ++
      (some seed :: (emaGo mult seed (data.drop period)).map some)

/-- RSI value from smoothed average gain and loss: 100 on zero average loss,
otherwise 100 - 100 / (1 + gain / loss). -/
def rsiVal (avg_gain avg_loss : ℚ) : ℚ :=
  if avg_loss = 0 then 100 else 100 - 100 / (1 + avg_gain / avg_loss)

/-- Gain component of a bar-to-bar change (engine/indicators.rs rsi). -/
def gainOf (change : ℚ) : ℚ := if change > 0 then change else 0

/-- Loss component of a bar-to-bar change (engine/indicators.rs rsi). -/
def lossOf (change : ℚ) : ℚ := if change > 0 then 0 else -change

/-- Smoothed-average recursion of engine/indicators.rs rsi over the
remaining changes, carrying the Wilder averages. -/
def rsiGo (p : ℚ) (ag al : ℚ) : List ℚ → List (Option ℚ)
  | [] => []
  | ch :: rest =>
    let ag2 := (ag * (p - 1) + gainOf ch) / p
    let al2 := (al * (p - 1) + lossOf ch) / p
    some (rsiVal ag2 al2) :: rsiGo p ag2 al2 rest

/-- engine/indicators.rs rsi.  First period values are NaN; the first average
is the simple average of the first period changes, later ones use Wilder
smoothing. -/
def rsi (close : List ℚ) (period : Nat) : List (Option ℚ) :=
  let len := close.length
  if period = 0 ∨ len < period + 1 then List.replicate len none
  else
    let changes := (close.zip (close.drop 1)).map (fun ab => ab.2 - ab.1)
    let ag0 := qsum ((changes.take period).map gainOf) / period
    let al0 := qsum ((changes.take period).map lossOf) / period
    List.replicate period none ++
      (some (rsiVal ag0 al0) :: rsiGo period ag0 al0 (changes.drop period))

/-- Wilder smoothing fold used to state properties of rsi and atr: each step
maps acc to (acc * (p - 1) + x) / p. -/
def wilderSmooth (p : ℚ) (seed : ℚ) (xs : List ℚ) : ℚ :=
  xs.foldl (fun acc x => (acc * (p - 1) + x) / p) seed

/-- Specification of the smoothed average loss carried by rsi at index i
(defined for period ≤ i < close.length). -/
def rsi_avg_loss (close : List ℚ) (period i : Nat) : ℚ :=
  let changes := (close.zip (close.drop 1)).map (fun ab => ab.2 - ab.1)
  let losses := changes.map lossOf
  wilderSmooth period (qsum (losses.take period) / period)
    ((losses.drop period).take (i - period))

/-- Specification of the smoothed average gain carried by rsi at index i. -/
def rsi_avg_gain (close : List ℚ) (period i : Nat) : ℚ :=
  let changes := (close.zip (close.drop 1)).map (fun ab => ab.2 - ab.1)
  let gains := changes.map gainOf
  wilderSmooth period (qsum (gains.take period) / period)
    ((gains.drop period).take (i - period))

/-- True-range series of engine/indicators.rs atr: first entry is
high - low, later ones max(high - low, |high - prev close|, |low - prev close|). -/
def trList (high low close : List ℚ) : List ℚ :=
  (List.range high.length).map (fun i =>
    if i = 0 then high.getD 0 0 - low.getD 0 0
    else
      let hl := high.getD i 0 - low.getD i 0
      let hc := qAbs (high.getD i 0 - close.getD (i - 1) 0)
      let lc := qAbs (low.getD i 0 - close.getD (i - 1) 0)
      qMax (qMax hl hc) lc)

/-- Wilder recursion tail of engine/indicators.rs atr. -/
def atrGo (p : ℚ) (prev : ℚ) : List ℚ → List ℚ
  | [] => []
  | tr :: rest =>
    let v := (prev * (p - 1) + tr) / p
    v :: atrGo p v rest

/-- engine/indicators.rs atr.  A period of zero would make the source panic
on an out-of-bounds write; it is modelled as the all-NaN vector. -/
def atr (high low close : List ℚ) (period : Nat) : List (Option ℚ) :=
  let len := high.length
  if period = 0 ∨ len < period then List.replicate len none
  else
    let tr := trList high low close
    let seed := qsum (tr.take period) / period
    List.replicate (period - 1) none ++
      (some seed :: (atrGo period seed (tr.drop period)).map some)

/-- engine/indicators.rs sma_on_slice: SMA over a slice that may contain NaN;
a window containing any NaN yields NaN. -/
def sma_on_slice (data : List (Option ℚ)) (period : Nat) : List (Option ℚ) :=
  let len := data.length
  if period = 0 then List.replicate len none
  else
    (List.range len).map (fun i =>
      if i + 1 < period then none
      else
        let window := (data.drop (i + 1 - period)).take period
        if window.all Option.isSome then
          some (qsum (window.map (·.getD 0)) / period)
        else none)

/-- engine/indicators.rs stochastic, returning (%K, %D).  A k_period of zero
makes the source loop run over an empty wrapped range, leaving every %K NaN;
modelled by the same all-NaN outcome. -/
def stochastic (high low close : List ℚ) (k_period d_period : Nat) :
    List (Option ℚ) × List (Option ℚ) :=
  let len := high.length
  let k := (List.range len).map (fun i =>
    if k_period = 0 ∨ i + 1 < k_period then none
    else
      let window_high := (high.drop (i + 1 - k_period)).take k_period
      let window_low := (low.drop (i + 1 - k_period)).take k_period
      let highest := listMax window_high
      let lowest := listMin window_low
      let range := highest - lowest
      some (if range = 0 then 50
            else (close.getD i 0 - lowest) / range * 100))
  (k, sma_on_slice k d_period)

/-- Typical-price series of engine/indicators.rs cci. -/
def tpList (high low close : List ℚ) : List ℚ :=
  (List.range high.length).map (fun i =>
    (high.getD i 0 + low.getD i 0 + close.getD i 0) / 3)

/-- engine/indicators.rs cci.  A period of zero makes the source loop run
over an empty wrapped range, leaving every value NaN. -/
def cci (high low close : List ℚ) (period : Nat) : List (Option ℚ) :=
  let len := high.length
  let tp := tpList high low close
  (List.range len).map (fun i =>
    if period = 0 ∨ i + 1 < period then none
    else
      let window := (tp.drop (i + 1 - period)).take period
      let mean := qsum window / period
      let mean_dev := qsum (window.map (fun v => qAbs (v - mean))) / period
      some (if mean_dev = 0 then 0
            else (tp.getD i 0 - mean) / ((3 / 200) * mean_dev)))

/-- engine/indicators.rs require_period. -/
def require_period (params : IndicatorParams) : Except AppError Nat :=
  match params.period with
  | some p => .ok p
  | none => .error (.invalidIndicatorParams "period parameter is required")

/-- engine/indicators.rs check_data_len. -/
def check_data_len (available needed : Nat) : Except AppError Unit :=
  if available < needed then .error (.insufficientData needed available)
  else .ok ()

/-- engine/indicators.rs compute_indicator, for the modelled kinds. -/
def compute_indicator (config : IndicatorConfig) (candles : List Candle) :
    Except AppError IndicatorOutput := do
  let len := candles.length
  if len = 0 then
    throw (.insufficientData 1 0)
  let close := candles.map (·.close)
  let high := candles.map (·.high)
  let low := candles.map (·.low)
  match config.indicator_type with
  | .sma =>
    let period ← require_period config.params
    check_data_len len period
    pure ⟨sma close period, none, none, none⟩
  | .ema =>
    let period ← require_period config.params
    check_data_len len period
    pure ⟨ema close period, none, none, none⟩
  | .rsi =>
    let period ← require_period config.params
    check_data_len len (period + 1)
    pure ⟨rsi close period, none, none, none⟩
  | .atr =>
    let period ← require_period config.params
    check_data_len len (period + 1)
    pure ⟨atr high low close period, none, none, none⟩
  | .stochastic =>
    let k_period ←
      match config.params.k_period with
      | some k => pure k
      | none => throw (.invalidIndicatorParams "Stochastic requires k_period")
    let d_period ←
      match config.params.d_period with
      | some d => pure d
      | none => throw (.invalidIndicatorParams "Stochastic requires d_period")
    check_data_len len k_period
    let kd := stochastic high low close k_period d_period
    pure ⟨kd.1, some kd.2, none, none⟩
  | .cci =>
    let period ← require_period config.params
    check_data_len len period
    pure ⟨cci high low close period, none, none, none⟩

-- ══════════════════════════════════════════════════════════════
-- models/strategy.rs: rules and strategies
-- ══════════════════════════════════════════════════════════════

/-- models/strategy.rs Comparator. -/
inductive Comparator
  | greaterThan
  | lessThan
  | greaterOrEqual
  | lessOrEqual
  | equal
  | crossAbove
  | crossBelow
deriving DecidableEq, Repr

/-- models/strategy.rs LogicalOperator. -/
inductive LogicalOperator
  | and
  | or
deriving DecidableEq, Repr

/-- models/strategy.rs OperandType. -/
inductive OperandType
  | indicator
  | price
  | constant
  | barTime
  | candlePattern
deriving DecidableEq, Repr

/-- models/strategy.rs TimeField. -/
inductive TimeField
  | currentBar
  | barTimeValue
  | barHour
  | barMinute
  | barDayOfWeek
  | currentTime
  | currentHour
  | currentMinute
  | currentDayOfWeek
  | currentMonth
deriving DecidableEq, Repr

/-- models/strategy.rs PriceField.  Open is called open_ here. -/
inductive PriceField
  | open_
  | high
  | low
  | close
  | dailyOpen
  | dailyHigh
  | dailyLow
  | dailyClose
deriving DecidableEq, Repr

/-- models/strategy.rs CandlePatternType. -/
inductive CandlePatternType
  | doji
  | hammer
  | shootingStar
  | bearishEngulfing
  | bullishEngulfing
  | darkCloud
  | piercingLine
deriving DecidableEq, Repr

/-- models/strategy.rs Operand (flat struct with a type discriminator). -/
structure Operand where
  operand_type : OperandType
  indicator : Option IndicatorConfig := none
  price_field : Option PriceField := none
  constant_value : Option ℚ := none
  time_field : Option TimeField := none
  candle_pattern : Option CandlePatternType := none
  offset : Option Nat := none
deriving DecidableEq, Repr

/-- models/strategy.rs Rule. -/
structure Rule where
  id : String
  left_operand : Operand
  comparator : Comparator
  right_operand : Operand
  logical_operator : Option LogicalOperator := none
deriving DecidableEq, Repr

/-- models/strategy.rs TradingHours. -/
structure TradingHours where
  start_hour : Nat
  start_minute : Nat
  end_hour : Nat
  end_minute : Nat
deriving DecidableEq, Repr

/-- models/strategy.rs CloseTradesAt. -/
structure CloseTradesAt where
  hour : Nat
  minute : Nat
deriving DecidableEq, Repr

/-- models/strategy.rs Strategy. -/
structure Strategy where
  id : String
  name : String
  created_at : String
  updated_at : String
  long_entry_rules : List Rule
  short_entry_rules : List Rule
  long_exit_rules : List Rule
  short_exit_rules : List Rule
  position_sizing : PositionSizing
  stop_loss : Option StopLoss := none
  take_profit : Option TakeProfit := none
  trailing_stop : Option TrailingStop := none
  trading_costs : TradingCosts
  trade_direction : TradeDirection
  trading_hours : Option TradingHours := none
  max_daily_trades : Option Nat := none
  close_trades_at : Option CloseTradesAt := none
deriving DecidableEq, Repr

/-- models/strategy.rs BacktestPrecision. -/
inductive BacktestPrecision
  | selectedTfOnly
  | m1TickSimulation
  | realTickCustomSpread
  | realTickRealSpread
deriving DecidableEq, Repr

/-- models/strategy.rs BacktestConfig. -/
structure BacktestConfig where
  symbol_id : String
  timeframe : Timeframe
  start_date : String
  end_date : String
  initial_capital : ℚ
  leverage : ℚ
  precision : BacktestPrecision
deriving DecidableEq, Repr

-- ══════════════════════════════════════════════════════════════
-- engine/strategy.rs: indicator cache and rule evaluation
-- ══════════════════════════════════════════════════════════════

/-- engine/strategy.rs IndicatorCache (a map keyed by cache_key, modelled as
an association list). -/
abbrev IndicatorCache := List (String × IndicatorOutput)

/-- Lookup in the indicator cache. -/
def cacheGet (cache : IndicatorCache) (key : String) : Option IndicatorOutput :=
  (cache.find? (fun kv => kv.1 == key)).map (·.2)

/-- engine/strategy.rs DailyOhlcCache.  Its builder is not reached by the
modelled executor path, which passes no daily cache to rule evaluation. -/
structure DailyOhlcCache where
  daily_open : List (Option ℚ)
  daily_high : List (Option ℚ)
  daily_low : List (Option ℚ)
  daily_close : List (Option ℚ)
deriving DecidableEq, Repr

/-- engine/strategy.rs TimeCache (values are always finite in the source). -/
structure TimeCache where
  current_bar : List ℚ
  bar_time : List ℚ
  bar_hour : List ℚ
  bar_minute : List ℚ
  bar_day_of_week : List ℚ
  bar_month : List ℚ
deriving DecidableEq, Repr

/-- engine/strategy.rs CandlePatternCache (0.0 or 1.0 flags). -/
structure CandlePatternCache where
  doji : List ℚ
  hammer : List ℚ
  shooting_star : List ℚ
  bearish_engulfing : List ℚ
  bullish_engulfing : List ℚ
  dark_cloud : List ℚ
  piercing_line : List ℚ
deriving DecidableEq, Repr

instance : Inhabited Candle := ⟨⟨0, "", 0, 0, 0, 0, 0⟩⟩

/-- engine/strategy.rs get_indicator_value: pick the right output array by
output_field, after first consulting the extra map. -/
def get_indicator_value (output : IndicatorOutput) (config : IndicatorConfig)
    (index : Nat) : Option ℚ :=
  let fromExtra : Option (Option ℚ) :=
    match config.output_field, output.extra with
    | some field, some extra =>
      match extra.find? (fun kv => kv.1 == field) with
      | some kv => some (kv.2.getD index none)
      | none => none
    | _, _ => none
  match fromExtra with
  | some v => v
  | none =>
    match config.output_field with
    | some "signal" | some "d" | some "aroon_down" | some "vi_minus"
    | some "fractal_down" | some "ha_open" =>
      match output.secondary with
      | some s => s.getD index none
      | none => none
    | some "histogram" =>
      match output.tertiary with
      | some s => s.getD index none
      | none => none
    | some "upper" =>
      match output.secondary with
      | some s => s.getD index none
      | none => none
    | some "lower" =>
      match output.tertiary with
      | some s => s.getD index none
      | none => none
    | _ => output.primary.getD index none

/-- engine/strategy.rs resolve_operand.  BarTime operands use
bar_index + time_offset; an offset reaching before bar zero or past the end
of the data resolves to NaN (none). -/
def resolve_operand (operand : Operand) (bar_index : Nat)
    (cache : IndicatorCache) (candles : List Candle)
    (daily_ohlc : Option DailyOhlcCache) (time_cache : Option TimeCache)
    (pattern_cache : Option CandlePatternCache) (time_offset : Nat) :
    Option ℚ :=
  let base_index :=
    if operand.operand_type = .barTime then bar_index + time_offset
    else bar_index
  let go := fun (effective_index : Nat) =>
    if effective_index ≥ candles.length then none
    else
      match operand.operand_type with
      | .indicator =>
        match operand.indicator with
        | some config =>
          match cacheGet cache config.cache_key with
          | some output => get_indicator_value output config effective_index
          | none => none
        | none => none
      | .price =>
        let candle := candles.getD effective_index default
        match operand.price_field with
        | some .open_ => some candle.open_
        | some .high => some candle.high
        | some .low => some candle.low
        | some .close => some candle.close
        | some .dailyOpen =>
          match daily_ohlc with
          | some d => d.daily_open.getD effective_index none
          | none => none
        | some .dailyHigh =>
          match daily_ohlc with
          | some d => d.daily_high.getD effective_index none
          | none => none
        | some .dailyLow =>
          match daily_ohlc with
          | some d => d.daily_low.getD effective_index none
          | none => none
        | some .dailyClose =>
          match daily_ohlc with
          | some d => d.daily_close.getD effective_index none
          | none => none
        | none => some candle.close
      | .constant => some (operand.constant_value.getD 0)
      | .barTime =>
        match time_cache with
        | some tc =>
          match operand.time_field with
          | some .currentBar => some (tc.current_bar.getD effective_index 0)
          | some .barTimeValue | some .currentTime =>
            some (tc.bar_time.getD effective_index 0)
          | some .barHour | some .currentHour =>
            some (tc.bar_hour.getD effective_index 0)
          | some .barMinute | some .currentMinute =>
            some (tc.bar_minute.getD effective_index 0)
          | some .barDayOfWeek | some .currentDayOfWeek =>
            some (tc.bar_day_of_week.getD effective_index 0)
          | some .currentMonth => some (tc.bar_month.getD effective_index 0)
          | none => none
        | none => none
      | .candlePattern =>
        match pattern_cache with
        | some pc =>
          match operand.candle_pattern with
          | some .doji => some (pc.doji.getD effective_index 0)
          | some .hammer => some (pc.hammer.getD effective_index 0)
          | some .shootingStar => some (pc.shooting_star.getD effective_index 0)
          | some .bearishEngulfing =>
            some (pc.bearish_engulfing.getD effective_index 0)
          | some .bullishEngulfing =>
            some (pc.bullish_engulfing.getD effective_index 0)
          | some .darkCloud => some (pc.dark_cloud.getD effective_index 0)
          | some .piercingLine => some (pc.piercing_line.getD effective_index 0)
          | none => none
        | none => none
  match operand.offset with
  | some off => if base_index < off then none else go (base_index - off)
  | none => go base_index

/-- engine/strategy.rs evaluate_single_rule.  NaN on either side makes the
rule false; Equal compares within machine epsilon; the cross comparators
consult the previous bar. -/
def evaluate_single_rule (rule : Rule) (bar_index : Nat)
    (cache : IndicatorCache) (candles : List Candle)
    (daily_ohlc : Option DailyOhlcCache) (time_cache : Option TimeCache)
    (pattern_cache : Option CandlePatternCache) (time_offset : Nat) : Bool :=
  let left := resolve_operand rule.left_operand bar_index cache candles
    daily_ohlc time_cache pattern_cache time_offset
  let right := resolve_operand rule.right_operand bar_index cache candles
    daily_ohlc time_cache pattern_cache time_offset
  match left, right with
  | some l, some r =>
    match rule.comparator with
    | .greaterThan => decide (l > r)
    | .lessThan => decide (l < r)
    | .greaterOrEqual => decide (l ≥ r)
    | .lessOrEqual => decide (l ≤ r)
    | .equal => decide (|l - r| < f64Epsilon)
    | .crossAbove =>
      if bar_index = 0 then false
      else
        let prev_left := resolve_operand rule.left_operand (bar_index - 1)
          cache candles daily_ohlc time_cache pattern_cache time_offset
        let prev_right := resolve_operand rule.right_operand (bar_index - 1)
          cache candles daily_ohlc time_cache pattern_cache time_offset
        match prev_left, prev_right with
        | some pl, some pr => decide (pl ≤ pr ∧ l > r)
        | _, _ => false
    | .crossBelow =>
      if bar_index = 0 then false
      else
        let prev_left := resolve_operand rule.left_operand (bar_index - 1)
          cache candles daily_ohlc time_cache pattern_cache time_offset
        let prev_right := resolve_operand rule.right_operand (bar_index - 1)
          cache candles daily_ohlc time_cache pattern_cache time_offset
        match prev_left, prev_right with
        | some pl, some pr => decide (pl ≥ pr ∧ l < r)
        | _, _ => false
  | _, _ => false

/-- Left fold of engine/strategy.rs evaluate_rules: combine the accumulated
truth value with each next rule using the previous rule's connector
(defaulting to And). -/
def evaluate_rules_go (bar_index : Nat) (cache : IndicatorCache)
    (candles : List Candle) (daily_ohlc : Option DailyOhlcCache)
    (time_cache : Option TimeCache) (pattern_cache : Option CandlePatternCache)
    (time_offset : Nat) (prev : Rule) (acc : Bool) : List Rule → Bool
  | [] => acc
  | r :: rest =>
    let prev_operator := prev.logical_operator.getD .and
    let current := evaluate_single_rule r bar_index cache candles daily_ohlc
      time_cache pattern_cache time_offset
    let acc2 :=
      match prev_operator with
      | .and => acc && current
      | .or => acc || current
    evaluate_rules_go bar_index cache candles daily_ohlc time_cache
      pattern_cache time_offset r acc2 rest

/-- engine/strategy.rs evaluate_rules: empty rule lists are false. -/
def evaluate_rules (rules : List Rule) (bar_index : Nat)
    (cache : IndicatorCache) (candles : List Candle)
    (daily_ohlc : Option DailyOhlcCache) (time_cache : Option TimeCache)
    (pattern_cache : Option CandlePatternCache) (time_offset : Nat) : Bool :=
  match rules with
  | [] => false
  | r0 :: rest =>
    let first := evaluate_single_rule r0 bar_index cache candles daily_ohlc
      time_cache pattern_cache time_offset
    evaluate_rules_go bar_index cache candles daily_ohlc time_cache
      pattern_cache time_offset r0 first rest

/-- engine/strategy.rs collect_indicator_from_operand: compute and insert an
indicator for a not-yet-seen cache key. -/
def collect_indicator_from_operand (operand : Operand)
    (cache : IndicatorCache) (candles : List Candle) :
    Except AppError IndicatorCache :=
  if operand.operand_type = .indicator then
    match operand.indicator with
    | some config =>
      let key := config.cache_key
      if cache.any (fun kv => kv.1 == key) then .ok cache
      else
        match compute_indicator config candles with
        | .ok output => .ok (cache ++ [(key, output)])
        | .error e => .error e
    | none => .ok cache
  else .ok cache

/-- engine/strategy.rs pre_compute_indicators: walk all four rule lists and
compute each distinct indicator exactly once. -/
def pre_compute_indicators (strategy : Strategy) (candles : List Candle) :
    Except AppError IndicatorCache :=
  let all_rules := strategy.long_entry_rules ++ strategy.short_entry_rules ++
    strategy.long_exit_rules ++ strategy.short_exit_rules
  all_rules.foldlM (fun cache rule => do
    let cache ← collect_indicator_from_operand rule.left_operand cache candles
    collect_indicator_from_operand rule.right_operand cache candles)
    ([] : IndicatorCache)

/-- engine/strategy.rs indicator_lookback, for the modelled kinds. -/
def indicator_lookback (config : IndicatorConfig) : Nat :=
  match config.indicator_type with
  | .sma | .ema | .cci => config.params.period.getD 14
  | .rsi | .atr => config.params.period.getD 14 + 1
  | .stochastic => config.params.k_period.getD 14 + config.params.d_period.getD 3

/-- engine/strategy.rs operand_lookback. -/
def operand_lookback (operand : Operand) : Nat :=
  let base :=
    if operand.operand_type = .indicator then
      match operand.indicator with
      | some config => indicator_lookback config
      | none => 0
    else 0
  base + operand.offset.getD 0

/-- engine/strategy.rs max_lookback: maximum operand lookback over the four
rule lists, plus one for the cross comparators. -/
def max_lookback (strategy : Strategy) : Nat :=
  let all_rules := strategy.long_entry_rules ++ strategy.short_entry_rules ++
    strategy.long_exit_rules ++ strategy.short_exit_rules
  (all_rules.foldl (fun m rule =>
    max m (max (operand_lookback rule.left_operand)
      (operand_lookback rule.right_operand))) 0) + 1

-- ══════════════════════════════════════════════════════════════
-- engine/executor.rs
-- ══════════════════════════════════════════════════════════════

/-- models/result.rs EquityPoint. -/
structure EquityPoint where
  timestamp : String
  equity : ℚ
deriving DecidableEq, Repr

/-- models/result.rs DrawdownPoint. -/
structure DrawdownPoint where
  timestamp : String
  drawdown_pct : ℚ
deriving DecidableEq, Repr

/-- models/result.rs BacktestResults.  The metrics field of the source is a
pure function calculate_metrics(trades, equity_curve, initial_capital,
timeframe) of the outputs below; its irrational arithmetic (sqrt, powf) is
not modelled, so the field is omitted here. -/
structure BacktestResults where
  trades : List TradeResult
  equity_curve : List EquityPoint
  drawdown_curve : List DrawdownPoint
  returns : List ℚ
deriving DecidableEq, Repr

/-- engine/executor.rs SubBarData. -/
inductive SubBarData
  | none
  | candles (subs : List Candle)
  | ticks (t : TickColumns)
deriving DecidableEq, Repr

/-- Largest i64 value, the sentinel used for the last TF bar. -/
def i64Max : Int := 9223372036854775807

/-- Civil-calendar date from a day count since 1970-01-01 (the standard
days-from-civil inverse used by chrono). -/
def civilFromDays (z0 : Int) : Int × Int × Int :=
  let z := z0 + 719468
  let era := Int.ediv z 146097
  let doe := Int.emod z 146097
  let yoe := (doe - doe / 1460 + doe / 36524 - doe / 146096) / 365
  let y := yoe + era * 400
  let doy := doe - (365 * yoe + yoe / 4 - yoe / 100)
  let mp := (5 * doy + 2) / 153
  let d := doy - (153 * mp + 2) / 5 + 1
  let m := mp + (if mp < 10 then 3 else -9)
  (y + (if m ≤ 2 then 1 else 0), m, d)

/-- engine/executor.rs micros_to_datetime_string: render a microsecond
timestamp as YYYY-MM-DD HH:MM:SS.ffffff, the chrono format used on trade
close.  Rust i64 division truncates toward zero for the seconds and the
subsecond part takes the unsigned remainder, as in the source.  The chrono
fallback branch for out-of-range timestamps is not modelled. -/
def micros_to_datetime_string (micros : Int) : String :=
  let secs := Int.tdiv micros 1000000
  let micro_part := (Int.tmod micros 1000000).natAbs
  let days := Int.ediv secs 86400
  let sod := (Int.emod secs 86400).natAbs
  let ymd := civilFromDays days
  padZeros (toString ymd.1.natAbs) 4 ++ "-" ++
    padZeros (toString ymd.2.1.natAbs) 2 ++ "-" ++
    padZeros (toString ymd.2.2.natAbs) 2 ++ " " ++
    padZeros (toString (sod / 3600)) 2 ++ ":" ++
    padZeros (toString (sod % 3600 / 60)) 2 ++ ":" ++
    padZeros (toString (sod % 60)) 2 ++ "." ++
    padZeros (toString micro_part) 6

/-- engine/executor.rs format_duration_bars. -/
def format_duration_bars (bars minutes_per_bar : Nat) : String :=
  let total_minutes := bars * minutes_per_bar
  if total_minutes < 60 then toString total_minutes ++ "m"
  else if total_minutes < 1440 then
    toString (total_minutes / 60) ++ "h " ++ toString (total_minutes % 60) ++ "m"
  else
    toString (total_minutes / 1440) ++ "d " ++
      toString (total_minutes % 1440 / 60) ++ "h"

/-- engine/executor.rs extract_hour_minute: read HH and MM from the fixed
byte positions of a YYYY-MM-DD HH:MM:SS datetime (digits assumed, as
produced by the data pipeline). -/
def extract_hour_minute (datetime : String) : Nat × Nat :=
  let b := datetime.toList
  if b.length ≥ 16 then
    let d := fun (i : Nat) => (b.getD i '0').toNat - '0'.toNat
    (d 11 * 10 + d 12, d 14 * 10 + d 15)
  else (0, 0)

/-- engine/executor.rs should_close_at_time. -/
def should_close_at_time (close_at : Option CloseTradesAt) (datetime : String) :
    Bool :=
  match close_at with
  | some ct =>
    let hm := extract_hour_minute datetime
    decide (hm.1 * 60 + hm.2 ≥ ct.hour * 60 + ct.minute)
  | none => false

/-- engine/executor.rs is_within_trading_hours: inclusive window, wrapping
across midnight when start > end. -/
def is_within_trading_hours (hours : TradingHours) (h m : Nat) : Bool :=
  let current := h * 60 + m
  let start := hours.start_hour * 60 + hours.start_minute
  let stop := hours.end_hour * 60 + hours.end_minute
  if start ≤ stop then decide (start ≤ current ∧ current ≤ stop)
  else decide (start ≤ current ∨ current ≤ stop)

/-- Advance an index over a list while the predicate holds, never moving past
the end (the while loops of find_subbar_range); fuel-driven, with fuel at
least the list length guaranteeing the natural stop. -/
def advanceWhile [Inhabited α] (l : List α) (p : α → Bool) :
    Nat → Nat → Nat
  | i, 0 => i
  | i, fuel + 1 =>
    if i < l.length then
      if p (l.getD i default) then advanceWhile l p (i + 1) fuel else i
    else i

/-- engine/executor.rs find_subbar_range: returns ((start, end), new cursor).
Candle sub-bars compare datetime strings, tick sub-bars compare i64
timestamps. -/
def find_subbar_range (sub_bars : SubBarData) (cursor : Nat)
    (candle_dt next_dt : String) (candle_ts next_ts : Int) :
    (Nat × Nat) × Nat :=
  match sub_bars with
  | .none => ((0, 0), cursor)
  | .candles subs =>
    let total := subs.length
    let start := advanceWhile subs (fun c => decide (c.datetime < candle_dt))
      cursor total
    let stop :=
      if next_dt ≠ "" then
        advanceWhile subs (fun c => decide (c.datetime < next_dt)) start total
      else total
    ((start, stop), stop)
  | .ticks t =>
    let total := t.timestamps.length
    let start := advanceWhile t.timestamps (fun ts => decide (ts < candle_ts))
      cursor total
    let stop :=
      if next_ts < i64Max then
        advanceWhile t.timestamps (fun ts => decide (ts < next_ts)) start total
      else total
    ((start, stop), stop)

/-- engine/executor.rs process_subbars_candle inner loop over the sub-candle
slice: MAE/MFE update, SL/TP check, then trailing-stop update. -/
def processCandleGo (instrument : InstrumentConfig) (pos : OpenPosition) :
    List Candle → OpenPosition × Option (ℚ × String × CloseReason)
  | [] => (pos, none)
  | sc :: rest =>
    let pos1 := update_mae_mfe pos sc instrument
    match check_sl_tp_hit pos1 sc with
    | some pr => (pos1, some (pr.1, sc.datetime, pr.2))
    | none => processCandleGo instrument (update_trailing_stop pos1 sc) rest

/-- engine/executor.rs process_subbars_candle. -/
def process_subbars_candle (pos : OpenPosition) (sub_candles : List Candle)
    (start stop : Nat) (instrument : InstrumentConfig) :
    OpenPosition × Option (ℚ × String × CloseReason) :=
  processCandleGo instrument pos ((sub_candles.drop start).take (stop - start))

/-- Long branch of engine/executor.rs process_subbars_tick_columnar: one pass
over (bid, timestamp) pairs with inlined MAE/MFE, SL at bid, TP at the TP
level, then trailing-stop update. -/
def processTickLong (pip_size : ℚ) (pos : OpenPosition) :
    List (ℚ × Int) → OpenPosition × Option (ℚ × String × CloseReason)
  | [] => (pos, none)
  | (bid, ts) :: rest =>
    let adverse := (pos.entry_price - bid) / pip_size
    let favorable := (bid - pos.entry_price) / pip_size
    let p1 := { pos with
      mae_pips := if adverse > pos.mae_pips then adverse else pos.mae_pips
      mfe_pips := if favorable > pos.mfe_pips then favorable else pos.mfe_pips }
    let slHit := match p1.stop_loss with
      | some sl => decide (bid ≤ sl)
      | none => false
    if slHit then (p1, some (bid, micros_to_datetime_string ts, .stopLoss))
    else
      match p1.take_profit with
      | some tp =>
        if bid ≥ tp then (p1, some (tp, micros_to_datetime_string ts, .takeProfit))
        else
          let p2 :=
            match p1.trailing_stop_distance with
            | some distance =>
              if bid > p1.highest_since_entry then
                let new_sl := bid - distance
                { p1 with
                  highest_since_entry := bid
                  stop_loss :=
                    match p1.stop_loss with
                    | some sl => if new_sl > sl then some new_sl else some sl
                    | none => some new_sl }
              else p1
            | none => p1
          processTickLong pip_size p2 rest
      | none =>
        let p2 :=
          match p1.trailing_stop_distance with
          | some distance =>
            if bid > p1.highest_since_entry then
              let new_sl := bid - distance
              { p1 with
                highest_since_entry := bid
                stop_loss :=
                  match p1.stop_loss with
                  | some sl => if new_sl > sl then some new_sl else some sl
                  | none => some new_sl }
            else p1
          | none => p1
        processTickLong pip_size p2 rest

/-- Short branch of engine/executor.rs process_subbars_tick_columnar: one
pass over (ask, timestamp) pairs. -/
def processTickShort (pip_size : ℚ) (pos : OpenPosition) :
    List (ℚ × Int) → OpenPosition × Option (ℚ × String × CloseReason)
  | [] => (pos, none)
  | (ask, ts) :: rest =>
    let adverse := (ask - pos.entry_price) / pip_size
    let favorable := (pos.entry_price - ask) / pip_size
    let p1 := { pos with
      mae_pips := if adverse > pos.mae_pips then adverse else pos.mae_pips
      mfe_pips := if favorable > pos.mfe_pips then favorable else pos.mfe_pips }
    let slHit := match p1.stop_loss with
      | some sl => decide (ask ≥ sl)
      | none => false
    if slHit then (p1, some (ask, micros_to_datetime_string ts, .stopLoss))
    else
      match p1.take_profit with
      | some tp =>
        if ask ≤ tp then (p1, some (tp, micros_to_datetime_string ts, .takeProfit))
        else
          let p2 :=
            match p1.trailing_stop_distance with
            | some distance =>
              if ask < p1.lowest_since_entry then
                let new_sl := ask + distance
                { p1 with
                  lowest_since_entry := ask
                  stop_loss :=
                    match p1.stop_loss with
                    | some sl => if new_sl < sl then some new_sl else some sl
                    | none => some new_sl }
              else p1
            | none => p1
          processTickShort pip_size p2 rest
      | none =>
        let p2 :=
          match p1.trailing_stop_distance with
          | some distance =>
            if ask < p1.lowest_since_entry then
              let new_sl := ask + distance
              { p1 with
                lowest_since_entry := ask
                stop_loss :=
                  match p1.stop_loss with
                  | some sl => if new_sl < sl then some new_sl else some sl
                  | none => some new_sl }
            else p1
          | none => p1
        processTickShort pip_size p2 rest

/-- engine/executor.rs process_subbars_tick_columnar: the direction check is
hoisted outside the loop; longs read the bid column, shorts the ask column. -/
def process_subbars_tick_columnar (pos : OpenPosition) (ticks : TickColumns)
    (start stop : Nat) (instrument : InstrumentConfig) :
    OpenPosition × Option (ℚ × String × CloseReason) :=
  if start ≥ stop then (pos, none)
  else
    let n := stop - start
    let bids := (ticks.bids.drop start).take n
    let asks := (ticks.asks.drop start).take n
    let timestamps := (ticks.timestamps.drop start).take n
    let is_long := match pos.direction with
      | .long | .both => true
      | .short => false
    if is_long then processTickLong instrument.pip_size pos (bids.zip timestamps)
    else processTickShort instrument.pip_size pos (asks.zip timestamps)

/-- engine/executor.rs resolve_exit; the position is returned alongside the
exit because the source mutates it (MAE/MFE, trailing stop) in place. -/
def resolve_exit (pos : OpenPosition) (candle : Candle)
    (sub_bars : SubBarData) (sub_start sub_stop : Nat)
    (instrument : InstrumentConfig) :
    OpenPosition × Option (ℚ × String × CloseReason) :=
  match sub_bars with
  | .none =>
    let pos1 := update_mae_mfe pos candle instrument
    (pos1, (check_sl_tp_hit pos1 candle).map (fun pr =>
      (pr.1, candle.datetime, pr.2)))
  | .candles subs => process_subbars_candle pos subs sub_start sub_stop instrument
  | .ticks t => process_subbars_tick_columnar pos t sub_start sub_stop instrument

/-- engine/executor.rs close_position.  The uuid argument is the value of the
Uuid::new_v4 draw and exit_random_factor the random draw consumed by
apply_exit_costs, both made explicit. -/
def close_position (pos : OpenPosition) (exit_price : ℚ) (exit_time : String)
    (exit_bar : Nat) (reason : CloseReason) (instrument : InstrumentConfig)
    (strategy : Strategy) (config : BacktestConfig) (uuid : String)
    (exit_random_factor : ℚ) : TradeResult :=
  let adjusted_exit := apply_exit_costs exit_price pos.direction
    strategy.trading_costs instrument exit_random_factor
  let pnl := calculate_pnl pos.direction pos.entry_price adjusted_exit
    pos.lots instrument
  let pnl_pips := calculate_pnl_pips pos.direction pos.entry_price
    adjusted_exit instrument
  let commission := calculate_commission strategy.trading_costs pos.lots
    pos.entry_price instrument
  let duration_bars := exit_bar - pos.entry_bar
  let mpb := max config.timeframe.minutes 1
  { id := uuid
    direction := pos.direction
    entry_time := pos.entry_time
    entry_price := pos.entry_price
    exit_time := exit_time
    exit_price := adjusted_exit
    lots := pos.lots
    pnl := pnl
    pnl_pips := pnl_pips
    commission := commission
    close_reason := reason
    duration_bars := duration_bars
    duration_time := format_duration_bars duration_bars mpb
    mae := pos.mae_pips
    mfe := pos.mfe_pips }

/-- engine/executor.rs compute_atr_if_needed: ATR period from the first
ATR-typed SL, TP or trailing-stop component; errors become no ATR data. -/
def compute_atr_if_needed (strategy : Strategy) (candles : List Candle) :
    Option (List (Option ℚ)) :=
  let slP := match strategy.stop_loss with
    | some sl => if sl.sl_type = .atr then sl.atr_period else none
    | none => none
  let tpP := match strategy.take_profit with
    | some tp => if tp.tp_type = .atr then tp.atr_period else none
    | none => none
  let tsP := match strategy.trailing_stop with
    | some ts => if ts.ts_type = .atr then ts.atr_period else none
    | none => none
  match slP <|> tpP <|> tsP with
  | some period =>
    match compute_indicator ⟨.atr, { period := some period }, none⟩ candles with
    | .ok output => some output.primary
    | .error _ => none
  | none => none

/-- Oracle for the nondeterministic draws of a backtest run: slip n is the
value of the n-th rand::random::<f64>() call made for random slippage, and
uuid n is the Uuid::new_v4 string stamped on the n-th closed trade. -/
structure RandomOracle where
  slip : Nat → ℚ
  uuid : Nat → String

/-- Fixed context of the bar loop of engine/executor.rs run_backtest. -/
structure ExecCtx where
  candles : List Candle
  sub_bars : SubBarData
  strategy : Strategy
  config : BacktestConfig
  instrument : InstrumentConfig
  cancel_flag : Bool
  cache : IndicatorCache
  atr_values : Option (List (Option ℚ))
  can_go_long : Bool
  can_go_short : Bool

/-- Mutable state of the bar loop of engine/executor.rs run_backtest.
rand_draws counts the random slippage draws consumed so far. -/
structure ExecState where
  equity : ℚ
  peak_equity : ℚ
  position : Option OpenPosition
  trades : List TradeResult
  equity_curve : List EquityPoint
  drawdown_curve : List DrawdownPoint
  sub_cursor : Nat
  daily_trade_count : Nat
  current_date : String
  rand_draws : Nat
deriving DecidableEq, Repr

/-- The close-and-record step shared by the three close paths of the bar
loop (the source calls close_position, adjusts equity and clears the
position in each branch): the uuid draw is indexed by the number of closed
trades and the exit slippage draw by the number of random draws so far,
which advances only when slippage_random is set. -/
def closeAndRecord (ctx : ExecCtx) (o : RandomOracle) (i : Nat)
    (st : ExecState) (pos : OpenPosition) (exit_price : ℚ)
    (exit_time : String) (reason : CloseReason) : ExecState :=
  let trade := close_position pos exit_price exit_time i reason
    ctx.instrument ctx.strategy ctx.config (o.uuid st.trades.length)
    (o.slip st.rand_draws)
  { st with
    equity := st.equity + trade.pnl - trade.commission
    trades := st.trades ++ [trade]
    position := Option.none
    rand_draws := st.rand_draws +
      (if ctx.strategy.trading_costs.slippage_random then 1 else 0) }

/-- Section 1 of the bar loop (engine/executor.rs run_backtest lines
128-176): resolve a sub-bar exit, else the force-close time, else the
direction-specific exit rules, else keep the (possibly trailing-updated)
position.  Rule evaluation is called as in the executor, with no
daily/time/pattern caches and time offset 0. -/
def updatePositionPhase (ctx : ExecCtx) (o : RandomOracle) (i : Nat)
    (candle : Candle) (sub_start sub_stop : Nat) (s0 : ExecState) :
    ExecState :=
  match s0.position with
  | some pos =>
    let re := resolve_exit pos candle ctx.sub_bars sub_start sub_stop
      ctx.instrument
    let pos2 := re.1
    match re.2 with
    | some (exit_price, exit_time, reason) =>
      closeAndRecord ctx o i s0 pos2 exit_price exit_time reason
    | none =>
      if should_close_at_time ctx.strategy.close_trades_at candle.datetime
      then closeAndRecord ctx o i s0 pos2 candle.close candle.datetime
        .timeClose
      else
        let exit_rules :=
          match pos2.direction with
          | .long => ctx.strategy.long_exit_rules
          | .short => ctx.strategy.short_exit_rules
          | .both => ctx.strategy.long_exit_rules
        if evaluate_rules exit_rules i ctx.cache ctx.candles none none none 0
        then closeAndRecord ctx o i s0 pos2 candle.close candle.datetime
          .signal
        else
          let pos3 :=
            match ctx.sub_bars with
            | .none => update_trailing_stop pos2 candle
            | _ => pos2
          { s0 with position := some pos3 }
  | none => s0

/-- Section 2 of the bar loop (engine/executor.rs run_backtest lines
178-269): daily-counter reset, trading-hours and daily-cap checks, long
entry tested before short, then SL, lots, TP and trailing distance in that
order. -/
def entryPhase (ctx : ExecCtx) (o : RandomOracle) (i : Nat) (candle : Candle)
    (s1 : ExecState) : ExecState :=
  if s1.position.isNone then
        let bar_date := candle.datetime.take 10
        let reset := bar_date ≠ s1.current_date
        let count := if reset then 0 else s1.daily_trade_count
        let cur_date := if reset then bar_date else s1.current_date
        let within_hours :=
          match ctx.strategy.trading_hours with
          | some th =>
            let hm := extract_hour_minute candle.datetime
            is_within_trading_hours th hm.1 hm.2
          | none => true
        let under_daily_limit :=
          match ctx.strategy.max_daily_trades with
          | some mx => decide (count < mx)
          | none => true
        let direction : Option TradeDirection :=
          if within_hours && under_daily_limit then
            if ctx.can_go_long && !ctx.strategy.long_entry_rules.isEmpty &&
                evaluate_rules ctx.strategy.long_entry_rules i ctx.cache
                  ctx.candles none none none 0 then
              some .long
            else if ctx.can_go_short && !ctx.strategy.short_entry_rules.isEmpty &&
                evaluate_rules ctx.strategy.short_entry_rules i ctx.cache
                  ctx.candles none none none 0 then
              some .short
            else none
          else none
        match direction with
        | some dir =>
          let atr_val :=
            match ctx.atr_values with
            | some v => if i < v.length then v.getD i none else none
            | none => none
          let raw_price := candle.close
          let entry_price := apply_entry_costs raw_price dir
            ctx.strategy.trading_costs ctx.instrument (o.slip s1.rand_draws)
          let sl_price := ctx.strategy.stop_loss.map (fun cfg =>
            calculate_stop_loss cfg entry_price dir atr_val ctx.instrument)
          let lots := calculate_lots ctx.strategy.position_sizing s1.equity
            entry_price sl_price ctx.instrument
          let tp_price := ctx.strategy.take_profit.map (fun cfg =>
            calculate_take_profit cfg entry_price sl_price dir atr_val
              ctx.instrument)
          let ts_distance := ctx.strategy.trailing_stop.map (fun cfg =>
            calculate_trailing_stop_distance cfg entry_price sl_price atr_val
              ctx.instrument)
          { s1 with
            position := some
              { direction := dir
                entry_price := entry_price
                entry_bar := i
                entry_time := candle.datetime
                lots := lots
                stop_loss := sl_price
                take_profit := tp_price
                trailing_stop_distance := ts_distance
                highest_since_entry := candle.high
                lowest_since_entry := candle.low
                mae_pips := 0
                mfe_pips := 0 }
            daily_trade_count := count + 1
            current_date := cur_date
            rand_draws := s1.rand_draws +
              (if ctx.strategy.trading_costs.slippage_random then 1 else 0) }
        | none =>
          { s1 with daily_trade_count := count, current_date := cur_date }
  else s1

/-- Section 3 of the bar loop (engine/executor.rs run_backtest lines
271-301): record equity with unrealized P&L, advance the running peak and
append the equity and drawdown points. -/
def recordPhase (ctx : ExecCtx) (candle : Candle) (s2 : ExecState) :
    ExecState :=
  let unrealized : ℚ :=
    match s2.position with
    | some pos =>
      calculate_pnl_pips pos.direction pos.entry_price candle.close
        ctx.instrument * ctx.instrument.pip_value * pos.lots
    | none => 0
  let current_equity := s2.equity + unrealized
  let peak :=
    if current_equity > s2.peak_equity then current_equity
    else s2.peak_equity
  let drawdown_pct :=
    if peak > 0 then (peak - current_equity) / peak * 100 else 0
  { s2 with
    peak_equity := peak
    equity_curve := s2.equity_curve ++ [⟨candle.datetime, current_equity⟩]
    drawdown_curve := s2.drawdown_curve ++ [⟨candle.datetime, drawdown_pct⟩] }

/-- One iteration of the bar loop of engine/executor.rs run_backtest
(lines 98-302): cancellation poll, sub-bar range and cursor advance, then
the three sections above. -/
def stepBar (ctx : ExecCtx) (o : RandomOracle) (i : Nat) (s : ExecState) :
    Except AppError ExecState :=
  if i % 1000 = 0 && ctx.cancel_flag then .error .backtestCancelled
  else
    let total_bars := ctx.candles.length
    let candle := ctx.candles.getD i default
    let next_dt :=
      if i + 1 < total_bars then (ctx.candles.getD (i + 1) default).datetime
      else ""
    let next_ts :=
      if i + 1 < total_bars then (ctx.candles.getD (i + 1) default).timestamp
      else i64Max
    let fsr := find_subbar_range ctx.sub_bars s.sub_cursor candle.datetime
      next_dt candle.timestamp next_ts
    let s0 := { s with sub_cursor := fsr.2 }
    .ok (recordPhase ctx candle (entryPhase ctx o i candle
      (updatePositionPhase ctx o i candle fsr.1.1 fsr.1.2 s0)))

/-- The bar loop of engine/executor.rs run_backtest, from bar i with the
given number of bars left to process. -/
def runLoop (ctx : ExecCtx) (o : RandomOracle) :
    Nat → Nat → ExecState → Except AppError ExecState
  | _, 0, s => .ok s
  | i, fuel + 1, s =>
    match stepBar ctx o i s with
    | .error e => .error e
    | .ok s2 => runLoop ctx o (i + 1) fuel s2

/-- The tail of engine/executor.rs run_backtest (lines 304-330): close a
still-open position on the last candle with reason EndOfData and assemble
the BacktestResults record.  The source computes trade.pnl -
trade.commission on this close and discards it, so equity is not updated
here. -/
def finishRun (candles : List Candle) (instrument : InstrumentConfig)
    (strategy : Strategy) (config : BacktestConfig) (o : RandomOracle)
    (s : ExecState) : BacktestResults :=
  let total_bars := candles.length
  let s2 :=
    match s.position with
    | some pos =>
      let last_candle := candles.getD (total_bars - 1) default
      let trade := close_position pos last_candle.close
        last_candle.datetime (total_bars - 1) .endOfData instrument
        strategy config (o.uuid s.trades.length) (o.slip s.rand_draws)
      { s with trades := s.trades ++ [trade] }
    | none => s
  { trades := s2.trades
    equity_curve := s2.equity_curve
    drawdown_curve := s2.drawdown_curve
    returns := s2.trades.map (·.pnl) }

/-- engine/executor.rs run_backtest.  The progress callback performs no
state change and is dropped; the cancel flag is a fixed boolean; the random
and uuid draws come from the explicit oracle. -/
def run_backtest (candles : List Candle) (sub_bars : SubBarData)
    (strategy : Strategy) (config : BacktestConfig)
    (instrument : InstrumentConfig) (cancel_flag : Bool) (o : RandomOracle) :
    Except AppError BacktestResults :=
  let total_bars := candles.length
  if total_bars = 0 then .error .noDataInRange
  else
    match pre_compute_indicators strategy candles with
    | .error e => .error e
    | .ok cache =>
      let atr_values := compute_atr_if_needed strategy candles
      let lookback := max_lookback strategy
      let start_bar := min lookback total_bars
      let can_go_long :=
        match strategy.trade_direction with
        | .long | .both => true
        | .short => false
      let can_go_short :=
        match strategy.trade_direction with
        | .short | .both => true
        | .long => false
      let ctx : ExecCtx :=
        { candles := candles, sub_bars := sub_bars, strategy := strategy
          config := config, instrument := instrument
          cancel_flag := cancel_flag, cache := cache
          atr_values := atr_values, can_go_long := can_go_long
          can_go_short := can_go_short }
      let s0 : ExecState :=
        { equity := config.initial_capital
          peak_equity := config.initial_capital
          position := Option.none, trades := [], equity_curve := []
          drawdown_curve := [], sub_cursor := 0, daily_trade_count := 0
          current_date := "", rand_draws := 0 }
      match runLoop ctx o start_bar (total_bars - start_bar) s0 with
      | .error e => .error e
      | .ok s => .ok (finishRun candles instrument strategy config o s)

-- ══════════════════════════════════════════════════════════════
-- engine/optimizer.rs and the optimization model types
-- ══════════════════════════════════════════════════════════════

/-- models/result.rs BacktestMetrics.  f64 fields are ℚ; the fields whose
Rust names end in ..._ratio are renamed sharpe, sortino, calmar, return_dd. -/
structure BacktestMetrics where
  final_capital : ℚ
  total_return_pct : ℚ
  annualized_return_pct : ℚ
  monthly_return_avg_pct : ℚ
  sharpe : ℚ
  sortino : ℚ
  calmar : ℚ
  max_drawdown_pct : ℚ
  max_drawdown_duration_bars : Nat
  max_drawdown_duration_time : String
  avg_drawdown_pct : ℚ
  recovery_factor : ℚ
  total_trades : Nat
  winning_trades : Nat
  losing_trades : Nat
  breakeven_trades : Nat
  win_rate_pct : ℚ
  gross_profit : ℚ
  gross_loss : ℚ
  net_profit : ℚ
  profit_factor : ℚ
  avg_trade : ℚ
  avg_win : ℚ
  avg_loss : ℚ
  largest_win : ℚ
  largest_loss : ℚ
  expectancy : ℚ
  max_consecutive_wins : Nat
  max_consecutive_losses : Nat
  avg_consecutive_wins : ℚ
  avg_consecutive_losses : ℚ
  avg_trade_duration : String
  avg_bars_in_trade : ℚ
  avg_winner_duration : String
  avg_loser_duration : String
  mae_avg : ℚ
  mae_max : ℚ
  mfe_avg : ℚ
  mfe_max : ℚ
  stagnation_bars : Nat
  stagnation_time : String
  ulcer_index_pct : ℚ
  return_dd : ℚ

/-- models/result.rs ObjectiveFunction (constructor SharpeRatio is called
sharpe here, ReturnDdRatio is returnDd). -/
inductive ObjectiveFunction
  | totalProfit
  | sharpe
  | profitFactor
  | winRate
  | returnDd
  | minStagnation
  | minUlcerIndex
deriving DecidableEq, Repr

/-- models/result.rs OosResult. -/
structure OosResult where
  label : String
  total_return_pct : ℚ
  sharpe : ℚ
  max_drawdown_pct : ℚ
  profit_factor : ℚ
  total_trades : Nat
deriving DecidableEq, Repr

/-- models/result.rs OptimizationResult.  objective_value and
composite_score live in WithBot ℚ so that the f64 NEG_INFINITY sentinel of
the source is representable as ⊥. -/
structure OptimizationResult where
  params : List (String × ℚ)
  objective_value : WithBot ℚ
  composite_score : WithBot ℚ
  total_return_pct : ℚ
  sharpe : ℚ
  max_drawdown_pct : ℚ
  total_trades : Nat
  profit_factor : ℚ
  return_dd : ℚ
  stagnation_bars : Nat
  ulcer_index_pct : ℚ
  oos_results : List OosResult
deriving DecidableEq

/-- models/result.rs ParameterRange. -/
structure ParameterRange where
  rule_index : Int
  param_name : String
  display_name : String
  min : ℚ
  max : ℚ
  step : ℚ
  operand_side : String
  param_source : String
deriving DecidableEq, Repr

/-- engine/optimizer.rs MAX_COMBINATIONS. -/
def MAX_COMBINATIONS : Nat := 500000

/-- engine/optimizer.rs MAX_RESULTS. -/
def MAX_RESULTS : Nat := 50

/-- Largest usize value on the 64-bit targets the application builds for. -/
def USIZE_MAX : Nat := 18446744073709551615

/-- usize::saturating_mul. -/
def satMul (a b : Nat) : Nat := min (a * b) USIZE_MAX

/-- The while loop of engine/optimizer.rs generate_grid that pushes
min, min+step, ... while the value stays at most max + f64::EPSILON; the
f64 accumulation v += step is exact over ℚ.  The fuel covers the natural
stop for every positive step, the only case generate_grid reaches. -/
def gridValsGo (step m : ℚ) : ℚ → Nat → List ℚ
  | _, 0 => []
  | v, fuel + 1 => if v ≤ m then v :: gridValsGo step m (v + step) fuel else []

/-- Per-range value list of engine/optimizer.rs generate_grid; an empty list
falls back to the single value min. -/
def gridVals (r : ParameterRange) : List ℚ :=
  let m := r.max + f64Epsilon
  let fuel := (⌊(m - r.min) / r.step⌋ + 1).toNat
  let vals := gridValsGo r.step m r.min fuel
  if vals.isEmpty then [r.min] else vals

/-- The per-range loop of engine/optimizer.rs generate_grid: validate the
step, build the value list and accumulate the saturating total. -/
def gridLoop : List ParameterRange → Nat →
    Except AppError (List (List ℚ) × Nat)
  | [], total => .ok ([], total)
  | r :: rest, total =>
    if r.step ≤ 0 then
      .error (.optimizationError
        ("Step must be positive for parameter " ++ r.display_name))
    else
      let vals := gridVals r
      match gridLoop rest (satMul total vals.length) with
      | .ok pr => .ok (vals :: pr.1, pr.2)
      | .error e => .error e

/-- Iterative cartesian product of engine/optimizer.rs generate_grid. -/
def cartesianProduct (per_range : List (List ℚ)) : List (List ℚ) :=
  per_range.foldl
    (fun combos vals =>
      combos.flatMap (fun combo => vals.map (fun v => combo ++ [v])))
    [[]]

/-- engine/optimizer.rs generate_grid. -/
def generate_grid (ranges : List ParameterRange) :
    Except AppError (List (List ℚ)) :=
  if ranges.isEmpty then
    .error (.optimizationError "No parameter ranges specified")
  else
    match gridLoop ranges 1 with
    | .error e => .error e
    | .ok pr =>
      if pr.2 > MAX_COMBINATIONS then
        .error (.tooManyCombinations pr.2 MAX_COMBINATIONS)
      else .ok (cartesianProduct pr.1)

/-- Exact (non-saturating) total number of grid combinations: the product of
the per-range value-list lengths. -/
def grid_total (ranges : List ParameterRange) : Nat :=
  ranges.foldl (fun t r => t * (gridVals r).length) 1

/-- engine/optimizer.rs extract_objective: minimize objectives are negated
so that higher is better universally. -/
def extract_objective (metrics : BacktestMetrics)
    (objective : ObjectiveFunction) : ℚ :=
  match objective with
  | .totalProfit => metrics.net_profit
  | .sharpe => metrics.sharpe
  | .profitFactor => metrics.profit_factor
  | .winRate => metrics.win_rate_pct
  | .returnDd => metrics.return_dd
  | .minStagnation => -(metrics.stagnation_bars : ℚ)
  | .minUlcerIndex => -metrics.ulcer_index_pct

/-- engine/optimizer.rs build_result: result record from metrics, with the
first objective as primary and composite_score left at 0. -/
def build_result (ranges : List ParameterRange) (values : List ℚ)
    (metrics : BacktestMetrics) (objectives : List ObjectiveFunction) :
    OptimizationResult :=
  let params := (ranges.zip values).map (fun rv => (rv.1.display_name, rv.2))
  let primary := objectives.headD .sharpe
  { params := params
    objective_value := (extract_objective metrics primary : ℚ)
    composite_score := (0 : ℚ)
    total_return_pct := metrics.total_return_pct
    sharpe := metrics.sharpe
    max_drawdown_pct := metrics.max_drawdown_pct
    total_trades := metrics.total_trades
    profit_factor := metrics.profit_factor
    return_dd := metrics.return_dd
    stagnation_bars := metrics.stagnation_bars
    ulcer_index_pct := metrics.ulcer_index_pct
    oos_results := [] }

/-- engine/optimizer.rs build_failed_result: the sentinel record for a failed
backtest, with objective_value and composite_score at NEG_INFINITY (⊥). -/
def build_failed_result (ranges : List ParameterRange) (values : List ℚ) :
    OptimizationResult :=
  let params := (ranges.zip values).map (fun rv => (rv.1.display_name, rv.2))
  { params := params
    objective_value := ⊥
    composite_score := ⊥
    total_return_pct := 0
    sharpe := 0
    max_drawdown_pct := 0
    total_trades := 0
    profit_factor := 0
    return_dd := 0
    stagnation_bars := 0
    ulcer_index_pct := 0
    oos_results := [] }

/-- The per-combination closure of engine/optimizer.rs run_grid_search
(lines 333-380): on a set cancel flag the evaluation yields nothing; an Ok
backtest becomes a result record; an Err backtest is skipped (None).  The
backtest outcome is the bt argument; the progress counter and best-so-far
bookkeeping perform no state visible in the collected results. -/
def gridEvalOutcome (cancelled : Bool) (ranges : List ParameterRange)
    (values : List ℚ) (objectives : List ObjectiveFunction)
    (bt : Except AppError BacktestMetrics) : Option OptimizationResult :=
  if cancelled then none
  else
    match bt with
    | .ok m => some (build_result ranges values m objectives)
    | .error _ => none

/-- The per-individual closure of engine/optimizer.rs run_genetic_algorithm
(lines 485-509): on a set cancel flag nothing; an Ok backtest becomes
(fitness, record); an Err backtest becomes (NEG_INFINITY,
build_failed_result). -/
def gaEvalOutcome (cancelled : Bool) (ranges : List ParameterRange)
    (genes : List ℚ) (objectives : List ObjectiveFunction)
    (bt : Except AppError BacktestMetrics) :
    Option (WithBot ℚ × OptimizationResult) :=
  if cancelled then none
  else
    match bt with
    | .ok m =>
      let opt_result := build_result ranges genes m objectives
      some (opt_result.objective_value, opt_result)
    | .error _ => some (⊥, build_failed_result ranges genes)

/-- Collection of one grid batch (par_iter().map().collect() followed by
flatten) over pairs of parameter values and backtest outcomes, with the
cancel flag clear. -/
def gridBatch (ranges : List ParameterRange)
    (objectives : List ObjectiveFunction)
    (items : List (List ℚ × Except AppError BacktestMetrics)) :
    List OptimizationResult :=
  items.filterMap (fun it => gridEvalOutcome false ranges it.1 objectives it.2)

/-- Collection of one GA generation (par_iter().map().collect()) over pairs
of genes and backtest outcomes, with the cancel flag clear. -/
def gaBatch (ranges : List ParameterRange)
    (objectives : List ObjectiveFunction)
    (items : List (List ℚ × Except AppError BacktestMetrics)) :
    List (Option (WithBot ℚ × OptimizationResult)) :=
  items.map (fun it => gaEvalOutcome false ranges it.1 objectives it.2)

-- ══════════════════════════════════════════════════════════════
-- Derived notions used by the statements: id erasure, window statistics
-- ══════════════════════════════════════════════════════════════

instance [DecidableEq ε] [DecidableEq α] : DecidableEq (Except ε α) :=
  fun a b =>
    match a, b with
    | .error x, .error y =>
      if h : x = y then isTrue (h ▸ rfl)
      else isFalse (fun he => h (by cases he; rfl))
    | .ok x, .ok y =>
      if h : x = y then isTrue (h ▸ rfl)
      else isFalse (fun he => h (by cases he; rfl))
    | .error _, .ok _ => isFalse (fun he => Except.noConfusion he)
    | .ok _, .error _ => isFalse (fun he => Except.noConfusion he)

/-- Blank out the randomly generated uuid of a trade, keeping every other
field. -/
def eraseTradeId (t : TradeResult) : TradeResult := { t with id := "" }

/-- Blank out the trade uuids of a loop state. -/
def eraseState (s : ExecState) : ExecState :=
  { s with trades := s.trades.map eraseTradeId }

/-- Blank out the trade uuids of a results record. -/
def eraseResults (br : BacktestResults) : BacktestResults :=
  { br with trades := br.trades.map eraseTradeId }

/-- Blank out the trade uuids of a backtest outcome. -/
def eraseResultIds (r : Except AppError BacktestResults) :
    Except AppError BacktestResults :=
  r.map eraseResults

/-- Relation between an equity point and the drawdown point recorded on the
same bar: the drawdown percentage is nonnegative, and it is at most 100
whenever the recorded equity is nonnegative. -/
def curvePair (ep : EquityPoint) (dp : DrawdownPoint) : Prop :=
  0 ≤ dp.drawdown_pct ∧ (0 ≤ ep.equity → dp.drawdown_pct ≤ 100)

/-- Highest minus lowest over the %K window ending at bar i, the range whose
vanishing makes the stochastic %K fall back to its neutral value. -/
def stochWindowRange (high low : List ℚ) (k_period i : Nat) : ℚ :=
  listMax ((high.drop (i + 1 - k_period)).take k_period) -
    listMin ((low.drop (i + 1 - k_period)).take k_period)

/-- Mean absolute deviation of the typical price over the CCI window ending
at bar i. -/
def cciMeanDev (high low close : List ℚ) (period i : Nat) : ℚ :=
  let tp := tpList high low close
  let window := (tp.drop (i + 1 - period)).take period
  let mean := qsum window / period
  qsum (window.map (fun v => qAbs (v - mean))) / period

-- ══════════════════════════════════════════════════════════════
-- Concrete fixtures used by the witnesses and counterexamples
-- ══════════════════════════════════════════════════════════════

/-- Unit instrument: pip size, pip value, lot size and min lot all 1. -/
def fxInstr : InstrumentConfig := ⟨1, 1, 1, 1, 1, 0⟩

/-- EUR/USD-style instrument: pip 0.0001 worth 10 per lot, min lot 0.01. -/
def fxForex : InstrumentConfig :=
  ⟨1 / 10000, 10, 100000, 1 / 100, 1 / 100000, 5⟩

/-- Cost-free trading, no random slippage. -/
def fxCostsZero : TradingCosts := ⟨0, .fixedPerLot, 0, 0, false⟩

/-- Ten pips of random slippage. -/
def fxCostsRand : TradingCosts := ⟨0, .fixedPerLot, 0, 10, true⟩

/-- Operand holding a constant value. -/
def fxConst (v : ℚ) : Operand :=
  { operand_type := .constant, constant_value := some v }

/-- Entry rule that always fires: constant 1 > constant 0. -/
def fxRuleAlways : Rule :=
  { id := "r1", left_operand := fxConst 1, comparator := .greaterThan
    right_operand := fxConst 0 }

/-- Long-only strategy entering on every bar with 10 fixed lots and no
costs, SL or TP. -/
def fxStrat : Strategy :=
  { id := "s", name := "s", created_at := "", updated_at := ""
    long_entry_rules := [fxRuleAlways], short_entry_rules := []
    long_exit_rules := [], short_exit_rules := []
    position_sizing := ⟨.fixedLots, 10⟩
    trading_costs := fxCostsZero
    trade_direction := .long }

/-- Same strategy with one fixed lot and random slippage of ten pips. -/
def fxStratRand : Strategy :=
  { fxStrat with trading_costs := fxCostsRand
                 position_sizing := ⟨.fixedLots, 1⟩ }

/-- Strategy with no rules at all. -/
def fxStratEmpty : Strategy :=
  { id := "s", name := "s", created_at := "", updated_at := ""
    long_entry_rules := [], short_entry_rules := []
    long_exit_rules := [], short_exit_rules := []
    position_sizing := ⟨.fixedLots, 1⟩
    trading_costs := fxCostsZero
    trade_direction := .both }

/-- Operand reading a 3-period SMA. -/
def fxSmaOperand : Operand :=
  { operand_type := .indicator
    indicator := some ⟨.sma, { period := some 3 }, none⟩ }

/-- Strategy whose entry rule needs a 3-period SMA. -/
def fxStratSma : Strategy :=
  { fxStratEmpty with
    long_entry_rules := [{ id := "r", left_operand := fxSmaOperand
                           comparator := .greaterThan
                           right_operand := fxConst 0 }] }

/-- Flat candle at a given price. -/
def fxCandle (dt : String) (ts : Int) (p : ℚ) : Candle := ⟨ts, dt, p, p, p, p, 0⟩

/-- Three hourly candles at 100, 100, 50: an entry at bar 1 loses half the
price by bar 2. -/
def fxCandles3 : List Candle :=
  [fxCandle "2024-01-01 00:00:00" 0 100,
   fxCandle "2024-01-01 01:00:00" 3600000000 100,
   fxCandle "2024-01-01 02:00:00" 7200000000 50]

/-- A single candle. -/
def fxCandle1 : List Candle := [fxCandle "2024-01-01 00:00:00" 0 100]

/-- H1 backtest over 100 initial capital. -/
def fxCfg : BacktestConfig := ⟨"sym", .h1, "", "", 100, 1, .selectedTfOnly⟩

/-- Oracle drawing 0 for every random factor and stamping uuid u. -/
def fxOracle0 : RandomOracle := ⟨fun _ => 0, fun _ => "u"⟩

/-- Oracle drawing 1 for every random factor and stamping uuid v. -/
def fxOracle1 : RandomOracle := ⟨fun _ => 1, fun _ => "v"⟩

/-- Long position from 100 with SL 99 and TP 105. -/
def fxPosC2 : OpenPosition :=
  ⟨.long, 100, 0, "e", 1, some 99, some 105, Option.none, 100, 100, 0, 0⟩

/-- Candle with open 100, high 106, low 94: both SL 99 and TP 105 trigger. -/
def fxCandC2 : Candle := ⟨0, "d", 100, 106, 94, 100, 0⟩

/-- Long position from 100 with SL 95 and TP 101. -/
def fxPosC3 : OpenPosition :=
  ⟨.long, 100, 0, "e", 1, some 95, some 101, Option.none, 100, 100, 0, 0⟩

/-- Candle with open 100, high 102, low 94: SL 95 trades through without a
gap, and TP 101 also triggers one point from the open. -/
def fxCandC3 : Candle := ⟨0, "d", 100, 102, 94, 100, 0⟩

/-- Scenario S2 position: long at 1.1000 with SL 1.0950 and no TP. -/
def fxPosS2 : OpenPosition :=
  ⟨.long, 11 / 10, 0, "e", 1, some (1095 / 1000), Option.none, Option.none,
   11 / 10, 11 / 10, 0, 0⟩

/-- Scenario S2 bar: open 1.0900, high 1.0950, low 1.0850, close 1.0920. -/
def fxCandS2 : Candle :=
  ⟨0, "d", 109 / 100, 1095 / 1000, 1085 / 1000, 1092 / 1000, 0⟩

/-- Long position from 100 with SL 95 and TP 90 (a tick can satisfy both). -/
def fxPosTick : OpenPosition :=
  ⟨.long, 100, 0, "e", 1, some 95, some 90, Option.none, 100, 100, 0, 0⟩

/-- Fixed-amount sizing of 100 currency units. -/
def fxSizing : PositionSizing := ⟨.fixedAmount, 100⟩

/-- Grid range 1..800 in steps of 1. -/
def fxRange800 : ParameterRange :=
  ⟨0, "period", "P1", 1, 800, 1, "left", "indicator"⟩

/-- Minimal one-parameter range. -/
def fxRange1 : ParameterRange := ⟨0, "period", "P", 1, 3, 1, "left", "indicator"⟩

-- ══════════════════════════════════════════════════════════════
-- THEOREMS
-- ══════════════════════════════════════════════════════════════

/-- The executable qAbs agrees with the Mathlib absolute value. -/
theorem qAbs_eq_abs (q : ℚ) : qAbs q = |q| := by
  unfold qAbs
  rcases lt_or_ge q 0 with h | h
  · rw [if_pos h, abs_of_neg h]
  · rw [if_neg (not_lt.mpr h), abs_of_nonneg h]

/-- The executable qMax agrees with the Mathlib max. -/
theorem qMax_eq_max (a b : ℚ) : qMax a b = max a b := by
  unfold qMax
  rcases lt_or_ge a b with h | h
  · rw [if_pos h, max_eq_right h.le]
  · rw [if_neg (not_lt.mpr h), max_eq_left h]

/-- The executable qMin agrees with the Mathlib min. -/
theorem qMin_eq_min (a b : ℚ) : qMin a b = min a b := by
  unfold qMin
  rcases lt_or_ge b a with h | h
  · rw [if_pos h, min_eq_right h.le]
  · rw [if_neg (not_lt.mpr h), min_eq_left h]

/-- C2: when an open position carries both a stop loss and a take profit and
the candle triggers both (low ≤ SL and high ≥ TP for a long, high ≥ SL and
low ≤ TP for a short), check_sl_tp_hit returns the stop-loss exit at its
gap-aware fill when that fill is at most as far from the open as the TP
level, and the take-profit exit at the TP level otherwise. -/
theorem check_sl_tp_hit_closer_to_open_wins
    (pos : OpenPosition) (candle : Candle) (sl tp : ℚ)
    (hsl : pos.stop_loss = some sl) (htp : pos.take_profit = some tp) :
    ((pos.direction = .long ∨ pos.direction = .both) → candle.low ≤ sl →
      candle.high ≥ tp →
      check_sl_tp_hit pos candle =
        if qAbs (candle.open_ - (if candle.open_ ≤ sl then candle.open_ else sl))
            ≤ qAbs (candle.open_ - tp) then
          some ((if candle.open_ ≤ sl then candle.open_ else sl), .stopLoss)
        else some (tp, .takeProfit)) ∧
    (pos.direction = .short → candle.high ≥ sl → candle.low ≤ tp →
      check_sl_tp_hit pos candle =
        if qAbs (candle.open_ - (if candle.open_ ≥ sl then candle.open_ else sl))
            ≤ qAbs (candle.open_ - tp) then
          some ((if candle.open_ ≥ sl then candle.open_ else sl), .stopLoss)
        else some (tp, .takeProfit)) := by
  constructor
  · intro hdir hlow hhigh
    have hslr : check_stop_loss pos candle =
        some (if candle.open_ ≤ sl then candle.open_ else sl, .stopLoss) := by
      rcases hdir with h | h <;> simp [check_stop_loss, hsl, h, hlow]
    have htpr : check_take_profit pos candle = some (tp, .takeProfit) := by
      rcases hdir with h | h <;> simp [check_take_profit, htp, h, hhigh]
    simp only [check_sl_tp_hit, hslr, htpr]
  · intro hdir hhigh hlow
    have hslr : check_stop_loss pos candle =
        some (if candle.open_ ≥ sl then candle.open_ else sl, .stopLoss) := by
      simp [check_stop_loss, hsl, hdir, hhigh]
    have htpr : check_take_profit pos candle = some (tp, .takeProfit) := by
      simp [check_take_profit, htp, hdir, hlow]
    simp only [check_sl_tp_hit, hslr, htpr]

/-- C2 witness: long from 100 with SL 99 and TP 105 on a candle with open
100, high 106, low 94: both levels trigger, the SL fill 99 is closer to the
open, so the stop loss wins. -/
theorem check_sl_tp_hit_closer_to_open_wins_witness :
    check_sl_tp_hit fxPosC2 fxCandC2 = some (99, .stopLoss) := by
  have h := (check_sl_tp_hit_closer_to_open_wins fxPosC2 fxCandC2 99 105
    rfl rfl).1 (Or.inl rfl) (by with_unfolding_all decide) (by with_unfolding_all decide)
  exact h.trans (by with_unfolding_all decide)

/-- C3 counterexample: a long from 100 with SL 95 and TP 101 meets a candle
with open 100, high 102, low 94.  The candle trades through the SL
(low 94 ≤ 95) without gapping (open 100 > 95), so the claim asserts a fill
at the SL level with reason StopLoss; check_sl_tp_hit instead returns the
take profit, whose fill is closer to the open. -/
theorem check_sl_tp_hit_sl_fill_counterexample :
    check_sl_tp_hit fxPosC3 fxCandC3 = some (101, .takeProfit) ∧
    some ((101 : ℚ), CloseReason.takeProfit) ≠
      some ((95 : ℚ), CloseReason.stopLoss) :=
  ⟨by with_unfolding_all decide, by with_unfolding_all decide⟩

/-- C3 amended: when the candle trades through the stop loss,
check_sl_tp_hit fills at the open if the bar gap-opened through the level
and at the SL level otherwise — provided the take profit does not also
trigger with a fill strictly closer to the open (in particular whenever the
position has no TP, or the bar gapped through the SL). -/
theorem check_sl_tp_hit_stop_market_fill
    (pos : OpenPosition) (candle : Candle) (sl : ℚ)
    (hsl : pos.stop_loss = some sl) :
    ((pos.direction = .long ∨ pos.direction = .both) → candle.low ≤ sl →
      (∀ tp, pos.take_profit = some tp → candle.high ≥ tp →
        qAbs (candle.open_ - (if candle.open_ ≤ sl then candle.open_ else sl))
          ≤ qAbs (candle.open_ - tp)) →
      check_sl_tp_hit pos candle =
        some ((if candle.open_ ≤ sl then candle.open_ else sl), .stopLoss)) ∧
    (pos.direction = .short → candle.high ≥ sl →
      (∀ tp, pos.take_profit = some tp → candle.low ≤ tp →
        qAbs (candle.open_ - (if candle.open_ ≥ sl then candle.open_ else sl))
          ≤ qAbs (candle.open_ - tp)) →
      check_sl_tp_hit pos candle =
        some ((if candle.open_ ≥ sl then candle.open_ else sl), .stopLoss)) := by
  constructor
  · intro hdir hlow hquiet
    have hslr : check_stop_loss pos candle =
        some (if candle.open_ ≤ sl then candle.open_ else sl, .stopLoss) := by
      rcases hdir with h | h <;> simp [check_stop_loss, hsl, h, hlow]
    cases htp : pos.take_profit with
    | none =>
      have htpr : check_take_profit pos candle = none := by
        simp [check_take_profit, htp]
      simp only [check_sl_tp_hit, hslr, htpr]
    | some tp =>
      by_cases hh : candle.high ≥ tp
      · have htpr : check_take_profit pos candle = some (tp, .takeProfit) := by
          rcases hdir with h | h <;> simp [check_take_profit, htp, h, hh]
        simp only [check_sl_tp_hit, hslr, htpr]
        rw [if_pos (hquiet tp htp hh)]
      · have htpr : check_take_profit pos candle = none := by
          rcases hdir with h | h <;> simp [check_take_profit, htp, h, hh]
        simp only [check_sl_tp_hit, hslr, htpr]
  · intro hdir hhigh hquiet
    have hslr : check_stop_loss pos candle =
        some (if candle.open_ ≥ sl then candle.open_ else sl, .stopLoss) := by
      simp [check_stop_loss, hsl, hdir, hhigh]
    cases htp : pos.take_profit with
    | none =>
      have htpr : check_take_profit pos candle = none := by
        simp [check_take_profit, htp]
      simp only [check_sl_tp_hit, hslr, htpr]
    | some tp =>
      by_cases hh : candle.low ≤ tp
      · have htpr : check_take_profit pos candle = some (tp, .takeProfit) := by
          simp [check_take_profit, htp, hdir, hh]
        simp only [check_sl_tp_hit, hslr, htpr]
        rw [if_pos (hquiet tp htp hh)]
      · have htpr : check_take_profit pos candle = none := by
          simp [check_take_profit, htp, hdir, hh]
        simp only [check_sl_tp_hit, hslr, htpr]

/-- C3 witness, the S2 scenario: long at 1.1000 with SL 1.0950 meets the bar
open 1.0900, high 1.0950, low 1.0850; the bar gap-opens through the SL, the
fill is the open 1.0900 with reason StopLoss, and the cost-free P&L is
exactly -100 pips. -/
theorem check_sl_tp_hit_stop_market_fill_witness :
    check_sl_tp_hit fxPosS2 fxCandS2 = some (109 / 100, .stopLoss) ∧
    calculate_pnl_pips .long (11 / 10) (109 / 100) fxForex = -100 := by
  refine ⟨?_, by with_unfolding_all decide⟩
  have h := (check_sl_tp_hit_stop_market_fill fxPosS2 fxCandS2 (1095 / 1000)
    rfl).1 (Or.inl rfl) (by with_unfolding_all decide)
    (fun tp htp _ => by simp [fxPosS2] at htp)
  exact h.trans (by with_unfolding_all decide)

/-- C9: with a positive min_lot, calculate_lots always returns an integer
multiple of min_lot that is at least min_lot, and for the FixedAmount,
PercentEquity and RiskBased modes a missing stop-loss price yields exactly
min_lot rather than an error. -/
theorem calculate_lots_min_lot_multiple
    (sizing : PositionSizing) (equity entry_price : ℚ) (sl_price : Option ℚ)
    (instrument : InstrumentConfig) (hmin : 0 < instrument.min_lot) :
    (∃ k : ℤ, calculate_lots sizing equity entry_price sl_price instrument =
      k * instrument.min_lot) ∧
    instrument.min_lot ≤
      calculate_lots sizing equity entry_price sl_price instrument ∧
    (sl_price = none →
      (sizing.sizing_type = .fixedAmount ∨ sizing.sizing_type = .percentEquity
        ∨ sizing.sizing_type = .riskBased) →
      calculate_lots sizing equity entry_price sl_price instrument =
        instrument.min_lot) := by
  have hne : instrument.min_lot ≠ 0 := ne_of_gt hmin
  have clamp : ∀ raw : ℚ,
      (∃ k : ℤ, qMax ((⌊raw / instrument.min_lot⌋ : ℚ) * instrument.min_lot)
          instrument.min_lot = k * instrument.min_lot) ∧
      instrument.min_lot ≤
        qMax ((⌊raw / instrument.min_lot⌋ : ℚ) * instrument.min_lot)
          instrument.min_lot := by
    intro raw
    rw [qMax_eq_max]
    refine ⟨?_, le_max_right _ _⟩
    rcases le_total ((⌊raw / instrument.min_lot⌋ : ℚ) * instrument.min_lot)
      instrument.min_lot with h | h
    · refine ⟨1, ?_⟩
      rw [max_eq_right h]
      norm_num
    · exact ⟨⌊raw / instrument.min_lot⌋, by rw [max_eq_left h]⟩
  have self_case : qMax ((⌊instrument.min_lot / instrument.min_lot⌋ : ℚ) *
      instrument.min_lot) instrument.min_lot = instrument.min_lot := by
    rw [div_self hne, qMax_eq_max]
    norm_num
  have early : (∃ k : ℤ, instrument.min_lot = (k : ℚ) * instrument.min_lot) ∧
      instrument.min_lot ≤ instrument.min_lot := ⟨⟨1, by norm_num⟩, le_refl _⟩
  rcases hs : sizing.sizing_type with _ | _ | _ | _ <;>
    rcases sl_price with _ | sl <;>
    simp only [calculate_lots, hs]
  · exact ⟨(clamp _).1, (clamp _).2, fun _ h3 => by simp at h3⟩
  · exact ⟨(clamp _).1, (clamp _).2, fun _ h3 => by simp at h3⟩
  · exact ⟨(clamp _).1, (clamp _).2, fun _ _ => self_case⟩
  · split_ifs with hc
    · exact ⟨early.1, early.2, fun h2 _ => h2.elim⟩
    · exact ⟨(clamp _).1, (clamp _).2, fun h2 _ => h2.elim⟩
  · exact ⟨(clamp _).1, (clamp _).2, fun _ _ => self_case⟩
  · split_ifs with hc
    · exact ⟨early.1, early.2, fun h2 _ => h2.elim⟩
    · exact ⟨(clamp _).1, (clamp _).2, fun h2 _ => h2.elim⟩
  · exact ⟨(clamp _).1, (clamp _).2, fun _ _ => self_case⟩
  · split_ifs with hc
    · exact ⟨early.1, early.2, fun h2 _ => h2.elim⟩
    · exact ⟨(clamp _).1, (clamp _).2, fun h2 _ => h2.elim⟩

/-- C9 witness: fixed-amount sizing with no stop loss on the EUR/USD-style
instrument returns exactly the minimum lot 0.01, an integer multiple of
itself and at least itself. -/
theorem calculate_lots_min_lot_multiple_witness :
    calculate_lots fxSizing 10000 (11 / 10) none fxForex = 1 / 100 := by
  have h := (calculate_lots_min_lot_multiple fxSizing 10000 (11 / 10) none
    fxForex (by with_unfolding_all decide)).2.2 rfl (Or.inl rfl)
  exact h.trans (by with_unfolding_all decide)

/-- C10: in tick-precision mode the stop loss is checked before the take
profit within a single tick: when the first tick of the processed range
satisfies both levels at once (bid ≤ SL and bid ≥ TP for a long, ask ≥ SL
and ask ≤ TP for a short), the optimized columnar loop exits with reason
StopLoss at the bid (respectively ask), not at the TP level, and the
reference routine check_tick_sl_tp agrees. -/
theorem tick_stop_loss_checked_before_take_profit
    (pos : OpenPosition) (sl tp bid ask : ℚ) (ts : Int)
    (tss : List Int) (bids asks : List ℚ) (stop : Nat)
    (instrument : InstrumentConfig)
    (hsl : pos.stop_loss = some sl) (htp : pos.take_profit = some tp) :
    ((pos.direction = .long ∨ pos.direction = .both) → bid ≤ sl → bid ≥ tp →
      (process_subbars_tick_columnar pos ⟨ts :: tss, bid :: bids, ask :: asks⟩
          0 (stop + 1) instrument).2 =
        some (bid, micros_to_datetime_string ts, .stopLoss) ∧
      check_tick_sl_tp pos bid ask = some (bid, .stopLoss)) ∧
    (pos.direction = .short → ask ≥ sl → ask ≤ tp →
      (process_subbars_tick_columnar pos ⟨ts :: tss, bid :: bids, ask :: asks⟩
          0 (stop + 1) instrument).2 =
        some (ask, micros_to_datetime_string ts, .stopLoss) ∧
      check_tick_sl_tp pos ask ask = some (ask, .stopLoss)) := by
  constructor
  · intro hdir hbid htpb
    constructor
    · have hlong : (match pos.direction with
          | .long | .both => true
          | .short => false) = true := by
        rcases hdir with h | h <;> simp [h]
      simp only [process_subbars_tick_columnar, hlong]
      simp only [List.drop_zero, Nat.sub_zero, List.take_cons, List.zip_cons_cons]
      rw [if_neg (by omega)]
      simp only [processTickLong, hsl]
      simp [hbid]
    · simp [check_tick_sl_tp, check_tick_stop_loss, check_tick_take_profit,
        hsl, htp]
      rcases hdir with h | h <;> simp [h, hbid, htpb]
  · intro hdir hask htpa
    constructor
    · have hshort : (match pos.direction with
          | .long | .both => true
          | .short => false) = false := by simp [hdir]
      simp only [process_subbars_tick_columnar, hshort]
      simp only [List.drop_zero, Nat.sub_zero, List.take_cons, List.zip_cons_cons]
      rw [if_neg (by omega)]
      simp only [processTickShort, hsl]
      simp [hask]
    · simp [check_tick_sl_tp, check_tick_stop_loss, check_tick_take_profit,
        hsl, htp, hdir, hask, htpa]

/-- C10 witness: a long from 100 with SL 95 and TP 90 meets a single tick
with bid 92 (at or below the SL and above the TP): the columnar loop and
check_tick_sl_tp both close at the bid with reason StopLoss. -/
theorem tick_stop_loss_checked_before_take_profit_witness :
    (process_subbars_tick_columnar fxPosTick ⟨[0], [92], [93]⟩ 0 1 fxInstr).2 =
      some (92, "1970-01-01 00:00:00.000000", .stopLoss) ∧
    check_tick_sl_tp fxPosTick 92 93 = some (92, .stopLoss) := by
  have h := (tick_stop_loss_checked_before_take_profit fxPosTick 95 90 92 93
    0 [] [] [] 0 fxInstr rfl rfl).1 (Or.inl rfl) (by with_unfolding_all decide) (by with_unfolding_all decide)
  exact ⟨h.1.trans (by with_unfolding_all decide), h.2⟩

/-- C7 counterexample: on the grid-search path a fitness evaluation that
fails with an error other than cancellation is not converted to a sentinel
record with fitness negative infinity as the claim states: the
per-combination closure maps it to None, dropping it from the batch. -/
theorem grid_failed_evaluation_counterexample :
    gridEvalOutcome false [fxRange1] [1] [ObjectiveFunction.totalProfit]
      (.error .noDataInRange) = none := rfl

/-- C7 amended: a failed non-cancellation fitness evaluation never aborts
the batch; on the genetic-algorithm path it becomes the sentinel record
with fitness negative infinity (⊥), while on the grid-search path it is
silently dropped: the grid batch of any surrounding evaluations is the
concatenation without the failed one, and the GA batch keeps the sentinel
in place. -/
theorem failed_evaluation_is_sentinel_not_abort
    (ranges : List ParameterRange) (values v : List ℚ)
    (objectives : List ObjectiveFunction) (e : AppError)
    (pre post : List (List ℚ × Except AppError BacktestMetrics)) :
    gaEvalOutcome false ranges values objectives (.error e) =
      some (⊥, build_failed_result ranges values) ∧
    gridEvalOutcome false ranges values objectives (.error e) = none ∧
    gridBatch ranges objectives (pre ++ (v, .error e) :: post) =
      gridBatch ranges objectives pre ++ gridBatch ranges objectives post ∧
    gaBatch ranges objectives (pre ++ (v, .error e) :: post) =
      gaBatch ranges objectives pre ++
        some (⊥, build_failed_result ranges v) :: gaBatch ranges objectives post := by
  refine ⟨rfl, rfl, ?_, ?_⟩
  · simp [gridBatch, List.filterMap_append, gridEvalOutcome]
  · simp [gaBatch, gaEvalOutcome]

/-- Every per-range value list of generate_grid is nonempty: an empty while
loop falls back to the single value min. -/
theorem gridVals_length_pos (r : ParameterRange) : 0 < (gridVals r).length := by
  simp only [gridVals]
  split
  · simp
  · next h => exact List.length_pos.mpr (by simpa [List.isEmpty_iff] using h)

/-- With every step positive, the per-range loop of generate_grid returns
the per-range lists together with the saturating product of their lengths. -/
theorem gridLoop_ok (ranges : List ParameterRange)
    (hstep : ∀ r ∈ ranges, 0 < r.step) (t : Nat) :
    gridLoop ranges t = .ok (ranges.map gridVals,
      ranges.foldl (fun a r => satMul a (gridVals r).length) t) := by
  induction ranges generalizing t with
  | nil => rfl
  | cons r rest ih =>
    have hr : ¬ r.step ≤ 0 := not_le.mpr (hstep r (List.mem_cons_self r rest))
    simp only [gridLoop, if_neg hr,
      ih (fun x hx => hstep x (List.mem_cons_of_mem r hx)), List.map_cons,
      List.foldl_cons]

/-- The exact combination count only grows along the fold, since every
per-range list has at least one value. -/
theorem le_foldl_mul (ranges : List ParameterRange) (a : Nat) :
    a ≤ ranges.foldl (fun t r => t * (gridVals r).length) a := by
  induction ranges generalizing a with
  | nil => exact le_refl a
  | cons r rest ih =>
    simp only [List.foldl_cons]
    exact le_trans (Nat.le_mul_of_pos_right a (gridVals_length_pos r)) (ih _)

/-- When the exact combination count fits in usize, the saturating fold of
generate_grid computes it exactly. -/
theorem satFold_eq (ranges : List ParameterRange) (t : Nat)
    (h : ranges.foldl (fun a r => a * (gridVals r).length) t ≤ USIZE_MAX) :
    ranges.foldl (fun a r => satMul a (gridVals r).length) t =
      ranges.foldl (fun a r => a * (gridVals r).length) t := by
  induction ranges generalizing t with
  | nil => rfl
  | cons r rest ih =>
    simp only [List.foldl_cons] at h ⊢
    have h1 : t * (gridVals r).length ≤ USIZE_MAX :=
      le_trans (le_foldl_mul rest _) h
    rw [show satMul t (gridVals r).length = t * (gridVals r).length from
      min_eq_left h1]
    exact ih _ h

/-- C6: for every nonempty list of ranges with positive steps whose
per-range value lists (min, min+step, ..., ≤ max + ε) have a product of
lengths above 500000 (and below the usize saturation point, so the count is
representable), generate_grid fails with TooManyCombinations carrying the
actual count and the limit. -/
theorem generate_grid_rejects_oversized (ranges : List ParameterRange)
    (hne : ranges ≠ []) (hstep : ∀ r ∈ ranges, 0 < r.step)
    (hbig : MAX_COMBINATIONS < grid_total ranges)
    (hfit : grid_total ranges ≤ USIZE_MAX) :
    generate_grid ranges =
      .error (.tooManyCombinations (grid_total ranges) MAX_COMBINATIONS) := by
  have hfold : ranges.foldl (fun a r => a * (gridVals r).length) 1 =
      grid_total ranges := rfl
  have hsat := satFold_eq ranges 1 (by rw [hfold]; exact hfit)
  unfold generate_grid
  rw [if_neg (by simpa [List.isEmpty_iff] using hne), gridLoop_ok ranges hstep 1]
  dsimp only
  rw [hsat, hfold, if_pos hbig]

set_option maxRecDepth 100000 in
/-- C6 witness, the S5 scenario: two ranges 1..800 with step 1 produce
800 × 800 = 640000 combinations, above the 500000 limit, and generate_grid
reports TooManyCombinations with both numbers. -/
theorem generate_grid_rejects_oversized_witness :
    generate_grid [fxRange800, fxRange800] =
      .error (.tooManyCombinations 640000 500000) := by
  have e : grid_total [fxRange800, fxRange800] = 640000 := by
    with_unfolding_all decide
  have h := generate_grid_rejects_oversized [fxRange800, fxRange800]
    (by simp) (by with_unfolding_all decide)
    (by rw [e]; norm_num [MAX_COMBINATIONS])
    (by rw [e]; norm_num [USIZE_MAX])
  rw [e] at h
  exact h

/-- Reading a range-map list at an in-range index gives the mapped value. -/
theorem getD_range_map {α : Type} (f : Nat → α) (n i : Nat) (d : α)
    (h : i < n) : ((List.range n).map f).getD i d = f i := by
  rw [List.getD_eq_getElem?_getD, List.getElem?_map, List.getElem?_range h]
  rfl

/-- Reading past a replicate block lands in the appended list. -/
theorem getD_replicate_append {α : Type} (x d : α) (as : List α) (n k : Nat) :
    (List.replicate n x ++ as).getD (n + k) d = as.getD k d := by
  induction n with
  | zero => simp
  | succ n ih => simpa [List.replicate_succ, Nat.succ_add] using ih

/-- Element j of the Wilder recursion of rsi is the rsi value of the
smoothed averages over the first j + 1 remaining changes. -/
theorem rsiGo_getD (p : ℚ) (chs : List ℚ) (j : Nat) (ag al : ℚ)
    (hj : j < chs.length) :
    (rsiGo p ag al chs).getD j none =
      some (rsiVal (wilderSmooth p ag ((chs.take (j + 1)).map gainOf))
        (wilderSmooth p al ((chs.take (j + 1)).map lossOf))) := by
  induction chs generalizing j ag al with
  | nil => simp at hj
  | cons ch rest ih =>
    cases j with
    | zero => simp [rsiGo, wilderSmooth]
    | succ j =>
      have hj2 : j < rest.length := by simpa using hj
      simp only [rsiGo, List.getD_cons_succ]
      rw [ih j _ _ hj2]
      simp [wilderSmooth, List.take_succ_cons]

/-- The change list of rsi has one entry less than the close series. -/
theorem rsi_changes_length (close : List ℚ) :
    ((close.zip (close.drop 1)).map (fun ab => ab.2 - ab.1)).length =
      close.length - 1 := by
  simp [List.length_zip]

/-- C8 for RSI: past the warm-up, a zero smoothed average loss yields
exactly 100. -/
theorem rsi_zero_loss_neutral (close : List ℚ) (period i : Nat)
    (hp : 0 < period) (hlen : period + 1 ≤ close.length) (hip : period ≤ i)
    (hi : i < close.length) (hzero : rsi_avg_loss close period i = 0) :
    (rsi close period).getD i none = some 100 := by
  simp only [rsi]
  rw [if_neg (by push_neg; exact ⟨hp.ne', hlen⟩)]
  obtain ⟨k, rfl⟩ : ∃ k, i = period + k :=
    ⟨i - period, (Nat.add_sub_cancel' hip).symm⟩
  rw [getD_replicate_append]
  simp only [rsi_avg_loss] at hzero
  cases k with
  | zero =>
    simp only [List.getD_cons_zero]
    simp only [Nat.add_zero, Nat.sub_self, List.take_zero, wilderSmooth,
      List.foldl_nil] at hzero
    simp only [rsiVal, List.map_take]
    rw [if_pos hzero]
  | succ k =>
    simp only [List.getD_cons_succ]
    have hlen2 : k < ((close.zip (close.drop 1)).map
        (fun ab => ab.2 - ab.1)).length - period := by
      rw [rsi_changes_length]
      omega
    rw [rsiGo_getD _ _ _ _ _ (by simpa [List.length_drop] using hlen2)]
    rw [Nat.add_sub_cancel_left] at hzero
    simp only [rsiVal, List.map_take, List.map_drop]
    rw [if_pos hzero]

/-- C8 for the stochastic %K: a flat window (zero high-low range) yields
exactly 50. -/
theorem stochastic_flat_neutral (high low close : List ℚ)
    (k_period d_period i : Nat) (hk : 0 < k_period) (hik : k_period ≤ i + 1)
    (hi : i < high.length)
    (hr : stochWindowRange high low k_period i = 0) :
    (stochastic high low close k_period d_period).1.getD i none = some 50 := by
  simp only [stochastic]
  rw [getD_range_map _ _ _ _ hi]
  rw [if_neg (by push_neg; exact ⟨hk.ne', hik⟩)]
  simp only [stochWindowRange] at hr
  rw [if_pos hr]

/-- C8 for the CCI: a zero mean absolute deviation yields exactly 0. -/
theorem cci_zero_dev_neutral (high low close : List ℚ) (period i : Nat)
    (hp : 0 < period) (hip : period ≤ i + 1) (hi : i < high.length)
    (hdev : cciMeanDev high low close period i = 0) :
    (cci high low close period).getD i none = some 0 := by
  simp only [cci]
  rw [getD_range_map _ _ _ _ hi]
  rw [if_neg (by push_neg; exact ⟨hp.ne', hip⟩)]
  simp only [cciMeanDev] at hdev
  rw [if_pos hdev]

/-- C8: past each oscillator warm-up, the zero-division fallbacks return the
documented neutral values: RSI is exactly 100 when the smoothed average loss
is zero, the stochastic %K is exactly 50 when the window range is zero, and
the CCI is exactly 0 when the mean absolute deviation is zero. -/
theorem oscillator_division_by_zero_neutral_values
    (close high low : List ℚ) (period k_period d_period i : Nat) :
    (0 < period → period + 1 ≤ close.length → period ≤ i →
      i < close.length → rsi_avg_loss close period i = 0 →
      (rsi close period).getD i none = some 100) ∧
    (0 < k_period → k_period ≤ i + 1 → i < high.length →
      stochWindowRange high low k_period i = 0 →
      (stochastic high low close k_period d_period).1.getD i none = some 50) ∧
    (0 < period → period ≤ i + 1 → i < high.length →
      cciMeanDev high low close period i = 0 →
      (cci high low close period).getD i none = some 0) :=
  ⟨fun hp hlen hip hi hz => rsi_zero_loss_neutral close period i hp hlen hip hi hz,
   fun hk hik hi hr =>
     stochastic_flat_neutral high low close k_period d_period i hk hik hi hr,
   fun hp hip hi hd => cci_zero_dev_neutral high low close period i hp hip hi hd⟩

/-- C8 witness: on flat series the fallbacks fire — RSI of 5,5,5 with
period 1 is 100 at bar 2, %K of a flat 2,2,2 range is 50 at bar 1, and CCI
of a flat 3,3,3 series is 0 at bar 2. -/
theorem oscillator_division_by_zero_neutral_values_witness :
    (rsi [5, 5, 5] 1).getD 2 none = some 100 ∧
    (stochastic [2, 2, 2] [2, 2, 2] [2, 2, 2] 2 1).1.getD 1 none = some 50 ∧
    (cci [3, 3, 3] [3, 3, 3] [3, 3, 3] 2).getD 2 none = some 0 :=
  ⟨(oscillator_division_by_zero_neutral_values [5, 5, 5] [] [] 1 0 0 2).1
      (by decide) (by decide) (by decide) (by decide)
      (by with_unfolding_all decide),
   (oscillator_division_by_zero_neutral_values [2, 2, 2] [2, 2, 2] [2, 2, 2] 0 2 1 1).2.1
      (by decide) (by decide) (by decide)
      (by with_unfolding_all decide),
   (oscillator_division_by_zero_neutral_values [3, 3, 3] [3, 3, 3] [3, 3, 3] 2 0 0 2).2.2
      (by decide) (by decide) (by decide)
      (by with_unfolding_all decide)⟩

-- ══════════════════════════════════════════════════════════════
-- C5: backtests over a single candle
-- ══════════════════════════════════════════════════════════════

theorem one_le_max_lookback (strategy : Strategy) :
    1 ≤ max_lookback strategy := by
  simp only [max_lookback]
  exact Nat.le_add_left 1 _

/-- C5 counterexample: the claim that a one-candle backtest always succeeds
with a single-point equity curve fails twice over.  The trivial strategy
succeeds but returns an empty equity curve (0 points, not 1), because
start_bar = min(max_lookback, 1) = 1 leaves no bar to process; and a
strategy reading a 3-period SMA does not succeed at all: it returns
InsufficientData (needed 3, available 1). -/
theorem run_backtest_one_candle_counterexample :
    (run_backtest fxCandle1 .none fxStratEmpty fxCfg fxInstr false
        fxOracle0).map (fun r => r.equity_curve.length) = .ok 0 ∧
      (0 : Nat) ≠ 1 ∧
      run_backtest fxCandle1 .none fxStratSma fxCfg fxInstr false fxOracle0 =
        .error (.insufficientData 3 1) := by
  refine ⟨?_, by decide, ?_⟩ <;> with_unfolding_all decide

/-- C5: amended.  On a one-candle input, run_backtest need not succeed
(pre_compute_indicators can fail), and whenever it does succeed it returns
zero trades and EMPTY equity and drawdown curves rather than single-point
ones: max_lookback is always at least 1, so start_bar = min(max_lookback, 1)
= 1 = total_bars and the bar loop executes zero iterations. -/
theorem run_backtest_one_candle (c : Candle) (sub_bars : SubBarData)
    (strategy : Strategy) (config : BacktestConfig)
    (instrument : InstrumentConfig) (cancel_flag : Bool) (o : RandomOracle)
    (r : BacktestResults)
    (hrun : run_backtest [c] sub_bars strategy config instrument cancel_flag o
      = .ok r) :
    r.trades = [] ∧ r.equity_curve = [] ∧ r.drawdown_curve = [] := by
  simp only [run_backtest, List.length_singleton] at hrun
  rw [if_neg (by omega : ¬ (1 = 0))] at hrun
  cases hpre : pre_compute_indicators strategy [c] with
  | error e =>
    rw [hpre] at hrun
    exact Except.noConfusion hrun
  | ok cache =>
    rw [hpre] at hrun
    rw [min_eq_right (one_le_max_lookback strategy), Nat.sub_self] at hrun
    injection hrun with h2
    subst h2
    exact ⟨rfl, rfl, rfl⟩

/-- C5 witness: the empty strategy on a one-candle input succeeds with no
trades and empty curves, instantiating run_backtest_one_candle. -/
theorem run_backtest_one_candle_witness :
    run_backtest fxCandle1 .none fxStratEmpty fxCfg fxInstr false fxOracle0 =
      .ok ⟨[], [], [], []⟩ ∧
    ((⟨[], [], [], []⟩ : BacktestResults).trades = [] ∧
     (⟨[], [], [], []⟩ : BacktestResults).equity_curve = [] ∧
     (⟨[], [], [], []⟩ : BacktestResults).drawdown_curve = []) := by
  have hrun : run_backtest [fxCandle "2024-01-01 00:00:00" 0 100] .none
      fxStratEmpty fxCfg fxInstr false fxOracle0 =
      .ok ⟨[], [], [], []⟩ := by with_unfolding_all decide
  exact ⟨hrun, run_backtest_one_candle _ _ _ _ _ _ _ _ hrun⟩

-- ══════════════════════════════════════════════════════════════
-- C4: bounds on the recorded drawdown percentages
-- ══════════════════════════════════════════════════════════════

theorem forall2_append_single {α β : Type} {R : α → β → Prop}
    {l1 : List α} {l2 : List β} (h : List.Forall₂ R l1 l2) {a : α} {b : β}
    (hab : R a b) : List.Forall₂ R (l1 ++ [a]) (l2 ++ [b]) := by
  induction h with
  | nil => exact List.Forall₂.cons hab List.Forall₂.nil
  | cons hx _ ih => exact List.Forall₂.cons hx ih

theorem dd_formula_nonneg (ce peak : ℚ) (hle : ce ≤ peak) :
    0 ≤ (if peak > 0 then (peak - ce) / peak * 100 else 0) := by
  split_ifs with hp
  · have h1 : (0 : ℚ) ≤ (peak - ce) / peak :=
      div_nonneg (sub_nonneg.mpr hle) hp.le
    nlinarith
  · exact le_refl 0

theorem dd_formula_le_100 (ce peak : ℚ) (hce : 0 ≤ ce) :
    (if peak > 0 then (peak - ce) / peak * 100 else 0) ≤ 100 := by
  split_ifs with hp
  · have h1 : (peak - ce) / peak ≤ 1 := (div_le_one hp).mpr (by linarith)
    nlinarith
  · norm_num

theorem curvePair_record (dt : String) (e pk : ℚ) :
    curvePair ⟨dt, e⟩
      ⟨dt, if (if e > pk then e else pk) > 0 then
        ((if e > pk then e else pk) - e) / (if e > pk then e else pk) * 100
        else 0⟩ := by
  have hle : e ≤ (if e > pk then e else pk) := by
    split_ifs with h
    · exact le_refl e
    · exact le_of_not_lt h
  constructor
  · exact dd_formula_nonneg e _ hle
  · intro he
    exact dd_formula_le_100 e _ he

theorem recordPhase_curvePair (ctx : ExecCtx) (candle : Candle)
    (s : ExecState)
    (h : List.Forall₂ curvePair s.equity_curve s.drawdown_curve) :
    List.Forall₂ curvePair (recordPhase ctx candle s).equity_curve
      (recordPhase ctx candle s).drawdown_curve := by
  unfold recordPhase
  dsimp only
  exact forall2_append_single h (curvePair_record candle.datetime _ _)

theorem updatePositionPhase_curves (ctx : ExecCtx) (o : RandomOracle)
    (i : Nat) (candle : Candle) (a b : Nat) (s0 : ExecState) :
    (updatePositionPhase ctx o i candle a b s0).equity_curve
        = s0.equity_curve ∧
      (updatePositionPhase ctx o i candle a b s0).drawdown_curve
        = s0.drawdown_curve := by
  unfold updatePositionPhase
  dsimp only
  repeat' split
  all_goals exact ⟨rfl, rfl⟩

theorem entryPhase_curves (ctx : ExecCtx) (o : RandomOracle) (i : Nat)
    (candle : Candle) (s1 : ExecState) :
    (entryPhase ctx o i candle s1).equity_curve = s1.equity_curve ∧
      (entryPhase ctx o i candle s1).drawdown_curve = s1.drawdown_curve := by
  unfold entryPhase
  dsimp only
  repeat' split
  all_goals exact ⟨rfl, rfl⟩

theorem finishRun_curves (candles : List Candle)
    (instrument : InstrumentConfig) (strategy : Strategy)
    (config : BacktestConfig) (o : RandomOracle) (s : ExecState) :
    (finishRun candles instrument strategy config o s).equity_curve
        = s.equity_curve ∧
      (finishRun candles instrument strategy config o s).drawdown_curve
        = s.drawdown_curve := by
  unfold finishRun
  dsimp only
  repeat' split
  all_goals exact ⟨rfl, rfl⟩

theorem stepBar_curvePair (ctx : ExecCtx) (o : RandomOracle) (i : Nat)
    (s s2 : ExecState) (hstep : stepBar ctx o i s = .ok s2)
    (h : List.Forall₂ curvePair s.equity_curve s.drawdown_curve) :
    List.Forall₂ curvePair s2.equity_curve s2.drawdown_curve := by
  unfold stepBar at hstep
  split at hstep
  · exact Except.noConfusion hstep
  · injection hstep with h2
    subst h2
    apply recordPhase_curvePair
    rw [(entryPhase_curves ctx o i _ _).1, (entryPhase_curves ctx o i _ _).2,
      (updatePositionPhase_curves ctx o i _ _ _ _).1,
      (updatePositionPhase_curves ctx o i _ _ _ _).2]
    exact h

theorem runLoop_curvePair (ctx : ExecCtx) (o : RandomOracle) :
    ∀ (fuel i : Nat) (s s2 : ExecState),
      runLoop ctx o i fuel s = .ok s2 →
      List.Forall₂ curvePair s.equity_curve s.drawdown_curve →
      List.Forall₂ curvePair s2.equity_curve s2.drawdown_curve := by
  intro fuel
  induction fuel with
  | zero =>
    intro i s s2 hrun h
    injection hrun with h2
    subst h2
    exact h
  | succ fuel ih =>
    intro i s s2 hrun h
    unfold runLoop at hrun
    cases hstep : stepBar ctx o i s with
    | error e =>
      rw [hstep] at hrun
      exact Except.noConfusion hrun
    | ok s3 =>
      rw [hstep] at hrun
      exact ih (i + 1) s3 s2 hrun (stepBar_curvePair ctx o i s s3 hstep h)

theorem forall2_curvePair_getD (l1 : List EquityPoint)
    (l2 : List DrawdownPoint) (h : List.Forall₂ curvePair l1 l2) :
    ∀ j : Nat, j < l2.length →
      0 ≤ (l2.getD j ⟨"", 0⟩).drawdown_pct ∧
        (0 ≤ (l1.getD j ⟨"", 0⟩).equity →
          (l2.getD j ⟨"", 0⟩).drawdown_pct ≤ 100) := by
  induction h with
  | nil =>
    intro j hj
    exact absurd hj (by simp)
  | cons hab htail ih =>
    intro j hj
    cases j with
    | zero => exact hab
    | succ j =>
      exact ih j (by simp only [List.length_cons] at hj; omega)

/-- C4: corrected bounds.  Every recorded drawdown percentage is
nonnegative, and it is at most 100 whenever the equity recorded on the same
bar is nonnegative; the unconditional upper bound of the claim is false
(see the counterexample), because equity marked to market can go negative
while the peak stays positive. -/
theorem drawdown_curve_bounds (candles : List Candle) (sub_bars : SubBarData)
    (strategy : Strategy) (config : BacktestConfig)
    (instrument : InstrumentConfig) (cancel_flag : Bool) (o : RandomOracle)
    (r : BacktestResults)
    (hrun : run_backtest candles sub_bars strategy config instrument
      cancel_flag o = .ok r) (j : Nat) (hj : j < r.drawdown_curve.length) :
    0 ≤ (r.drawdown_curve.getD j ⟨"", 0⟩).drawdown_pct ∧
      (0 ≤ (r.equity_curve.getD j ⟨"", 0⟩).equity →
        (r.drawdown_curve.getD j ⟨"", 0⟩).drawdown_pct ≤ 100) := by
  simp only [run_backtest] at hrun
  split at hrun
  · exact Except.noConfusion hrun
  · split at hrun
    · exact Except.noConfusion hrun
    · split at hrun
      · exact Except.noConfusion hrun
      · rename_i s hloop
        injection hrun with h2
        subst h2
        have hinv := runLoop_curvePair _ o _ _ _ _ hloop List.Forall₂.nil
        have hec := (finishRun_curves candles instrument strategy config o s).1
        have hdc := (finishRun_curves candles instrument strategy config o s).2
        rw [hdc] at hj
        rw [hec, hdc]
        exact forall2_curvePair_getD _ _ hinv j hj

set_option maxRecDepth 100000 in
/-- C4 counterexample: an always-long strategy with 10 fixed lots enters at
price 100 and is marked to market at 50 on the next bar, driving equity to
-400 against a peak of 100: the recorded drawdown is 500, violating the
claimed upper bound of 100. -/
theorem drawdown_exceeds_100_counterexample :
    (run_backtest fxCandles3 .none fxStrat fxCfg fxInstr false
        fxOracle0).map
      (fun r => r.drawdown_curve.map (fun p => p.drawdown_pct)) =
      .ok [0, 500] ∧ ¬ ((500 : ℚ) ≤ 100) := by
  constructor
  · with_unfolding_all decide
  · with_unfolding_all decide

set_option maxRecDepth 100000 in
/-- C4 witness: the bounds instantiated on a successful three-candle run of
the empty strategy, whose first recorded drawdown is 0 with equity 100. -/
theorem drawdown_curve_bounds_witness :
    run_backtest fxCandles3 .none fxStratEmpty fxCfg fxInstr false fxOracle0 =
      .ok ⟨[], [⟨"2024-01-01 01:00:00", 100⟩,
                ⟨"2024-01-01 02:00:00", 100⟩],
           [⟨"2024-01-01 01:00:00", 0⟩, ⟨"2024-01-01 02:00:00", 0⟩], []⟩ ∧
    (0 ≤ (([⟨"2024-01-01 01:00:00", 0⟩, ⟨"2024-01-01 02:00:00", 0⟩] :
          List DrawdownPoint).getD 0 ⟨"", 0⟩).drawdown_pct ∧
      (0 ≤ (([⟨"2024-01-01 01:00:00", 100⟩,
              ⟨"2024-01-01 02:00:00", 100⟩] :
          List EquityPoint).getD 0 ⟨"", 0⟩).equity →
        (([⟨"2024-01-01 01:00:00", 0⟩, ⟨"2024-01-01 02:00:00", 0⟩] :
          List DrawdownPoint).getD 0 ⟨"", 0⟩).drawdown_pct ≤ 100)) := by
  have hrun : run_backtest fxCandles3 .none fxStratEmpty fxCfg fxInstr false
      fxOracle0 =
      .ok ⟨[], [⟨"2024-01-01 01:00:00", 100⟩,
                ⟨"2024-01-01 02:00:00", 100⟩],
           [⟨"2024-01-01 01:00:00", 0⟩, ⟨"2024-01-01 02:00:00", 0⟩], []⟩ := by
    with_unfolding_all decide
  exact ⟨hrun, drawdown_curve_bounds _ _ _ _ _ _ _ _ hrun 0 (by decide)⟩

-- ══════════════════════════════════════════════════════════════
-- C1: determinism of run_backtest across random draws
-- ══════════════════════════════════════════════════════════════

theorem apply_entry_costs_const {costs : TradingCosts}
    (h : costs.slippage_random = false) (price : ℚ) (d : TradeDirection)
    (inst : InstrumentConfig) (r : ℚ) :
    apply_entry_costs price d costs inst r =
      apply_entry_costs price d costs inst 0 := by
  simp [apply_entry_costs, h]

theorem apply_exit_costs_const {costs : TradingCosts}
    (h : costs.slippage_random = false) (price : ℚ) (d : TradeDirection)
    (inst : InstrumentConfig) (r : ℚ) :
    apply_exit_costs price d costs inst r =
      apply_exit_costs price d costs inst 0 := by
  simp [apply_exit_costs, h]

theorem close_position_erase {strategy : Strategy}
    (h : strategy.trading_costs.slippage_random = false)
    (pos : OpenPosition) (price : ℚ) (time : String) (bar : Nat)
    (reason : CloseReason) (inst : InstrumentConfig)
    (config : BacktestConfig) (u : String) (r : ℚ) :
    eraseTradeId (close_position pos price time bar reason inst strategy
      config u r) =
    eraseTradeId (close_position pos price time bar reason inst strategy
      config "" 0) := by
  simp only [close_position, eraseTradeId, apply_exit_costs_const h]

theorem close_position_pnl_const {strategy : Strategy}
    (h : strategy.trading_costs.slippage_random = false)
    (pos : OpenPosition) (price : ℚ) (time : String) (bar : Nat)
    (reason : CloseReason) (inst : InstrumentConfig)
    (config : BacktestConfig) (u : String) (r : ℚ) :
    (close_position pos price time bar reason inst strategy config
        u r).pnl =
      (close_position pos price time bar reason inst strategy config
        "" 0).pnl := by
  have h2 := congrArg TradeResult.pnl
    (close_position_erase h pos price time bar reason inst config u r)
  exact h2

theorem close_position_commission_const {strategy : Strategy}
    (h : strategy.trading_costs.slippage_random = false)
    (pos : OpenPosition) (price : ℚ) (time : String) (bar : Nat)
    (reason : CloseReason) (inst : InstrumentConfig)
    (config : BacktestConfig) (u : String) (r : ℚ) :
    (close_position pos price time bar reason inst strategy config
        u r).commission =
      (close_position pos price time bar reason inst strategy config
        "" 0).commission := by
  have h2 := congrArg TradeResult.commission
    (close_position_erase h pos price time bar reason inst config u r)
  exact h2

theorem closeAndRecord_erase (ctx : ExecCtx)
    (h : ctx.strategy.trading_costs.slippage_random = false)
    (o1 o2 : RandomOracle) (i : Nat) (st1 st2 : ExecState)
    (hs : eraseState st1 = eraseState st2) (pos : OpenPosition)
    (price : ℚ) (time : String) (reason : CloseReason) :
    eraseState (closeAndRecord ctx o1 i st1 pos price time reason) =
    eraseState (closeAndRecord ctx o2 i st2 pos price time reason) := by
  obtain ⟨e1, pk1, po1, tr1, ec1, dc1, sc1, d1, cd1, rd1⟩ := st1
  obtain ⟨e2, pk2, po2, tr2, ec2, dc2, sc2, d2, cd2, rd2⟩ := st2
  simp only [eraseState, ExecState.mk.injEq] at hs
  obtain ⟨he, hpk, hpo, htr, hec, hdc, hsc, hd, hcd, hrd⟩ := hs
  subst he; subst hpk; subst hpo; subst hec; subst hdc; subst hsc
  subst hd; subst hcd; subst hrd
  simp [closeAndRecord, eraseState, ExecState.mk.injEq, List.map_append,
    htr, close_position_erase h, close_position_pnl_const h,
    close_position_commission_const h]

theorem recordPhase_erase (ctx : ExecCtx) (candle : Candle)
    (st1 st2 : ExecState) (hs : eraseState st1 = eraseState st2) :
    eraseState (recordPhase ctx candle st1) =
    eraseState (recordPhase ctx candle st2) := by
  obtain ⟨e1, pk1, po1, tr1, ec1, dc1, sc1, d1, cd1, rd1⟩ := st1
  obtain ⟨e2, pk2, po2, tr2, ec2, dc2, sc2, d2, cd2, rd2⟩ := st2
  simp only [eraseState, ExecState.mk.injEq] at hs
  obtain ⟨he, hpk, hpo, htr, hec, hdc, hsc, hd, hcd, hrd⟩ := hs
  subst he; subst hpk; subst hpo; subst hec; subst hdc; subst hsc
  subst hd; subst hcd; subst hrd
  simp [recordPhase, eraseState, ExecState.mk.injEq, htr]

theorem updatePositionPhase_erase (ctx : ExecCtx)
    (h : ctx.strategy.trading_costs.slippage_random = false)
    (o1 o2 : RandomOracle) (i : Nat) (candle : Candle) (a b : Nat)
    (st1 st2 : ExecState) (hs : eraseState st1 = eraseState st2) :
    eraseState (updatePositionPhase ctx o1 i candle a b st1) =
    eraseState (updatePositionPhase ctx o2 i candle a b st2) := by
  obtain ⟨e1, pk1, po1, tr1, ec1, dc1, sc1, d1, cd1, rd1⟩ := st1
  obtain ⟨e2, pk2, po2, tr2, ec2, dc2, sc2, d2, cd2, rd2⟩ := st2
  simp only [eraseState, ExecState.mk.injEq] at hs
  obtain ⟨he, hpk, hpo, htr, hec, hdc, hsc, hd, hcd, hrd⟩ := hs
  subst he; subst hpk; subst hpo; subst hec; subst hdc; subst hsc
  subst hd; subst hcd; subst hrd
  simp only [updatePositionPhase]
  cases po1 with
  | none => simp [eraseState, ExecState.mk.injEq, htr]
  | some pos =>
    have hs3 : eraseState ⟨e1, pk1, some pos, tr1, ec1, dc1, sc1, d1, cd1,
          rd1⟩ =
        eraseState ⟨e1, pk1, some pos, tr2, ec1, dc1, sc1, d1, cd1, rd1⟩ := by
      simp [eraseState, ExecState.mk.injEq, htr]
    repeat' split
    all_goals first
      | exact closeAndRecord_erase ctx h o1 o2 i _ _ hs3 _ _ _ _
      | simp [eraseState, ExecState.mk.injEq, htr]

theorem entryPhase_erase (ctx : ExecCtx)
    (h : ctx.strategy.trading_costs.slippage_random = false)
    (o1 o2 : RandomOracle) (i : Nat) (candle : Candle)
    (st1 st2 : ExecState) (hs : eraseState st1 = eraseState st2) :
    eraseState (entryPhase ctx o1 i candle st1) =
    eraseState (entryPhase ctx o2 i candle st2) := by
  obtain ⟨e1, pk1, po1, tr1, ec1, dc1, sc1, d1, cd1, rd1⟩ := st1
  obtain ⟨e2, pk2, po2, tr2, ec2, dc2, sc2, d2, cd2, rd2⟩ := st2
  simp only [eraseState, ExecState.mk.injEq] at hs
  obtain ⟨he, hpk, hpo, htr, hec, hdc, hsc, hd, hcd, hrd⟩ := hs
  subst he; subst hpk; subst hpo; subst hec; subst hdc; subst hsc
  subst hd; subst hcd; subst hrd
  simp only [entryPhase]
  split
  · split
    · rename_i dir heqD
      rw [heqD]
      simp [eraseState, ExecState.mk.injEq, htr, apply_entry_costs_const h]
    · rename_i heqD
      rw [heqD]
      simp [eraseState, ExecState.mk.injEq, htr]
  · simp [eraseState, ExecState.mk.injEq, htr]

theorem stepBar_erase (ctx : ExecCtx)
    (h : ctx.strategy.trading_costs.slippage_random = false)
    (o1 o2 : RandomOracle) (i : Nat) (st1 st2 : ExecState)
    (hs : eraseState st1 = eraseState st2) :
    (stepBar ctx o1 i st1).map eraseState =
    (stepBar ctx o2 i st2).map eraseState := by
  obtain ⟨e1, pk1, po1, tr1, ec1, dc1, sc1, d1, cd1, rd1⟩ := st1
  obtain ⟨e2, pk2, po2, tr2, ec2, dc2, sc2, d2, cd2, rd2⟩ := st2
  simp only [eraseState, ExecState.mk.injEq] at hs
  obtain ⟨he, hpk, hpo, htr, hec, hdc, hsc, hd, hcd, hrd⟩ := hs
  subst he; subst hpk; subst hpo; subst hec; subst hdc; subst hsc
  subst hd; subst hcd; subst hrd
  simp only [stepBar]
  split
  · rfl
  · simp only [Except.map]
    exact congrArg Except.ok
      (recordPhase_erase ctx _ _ _
        (entryPhase_erase ctx h o1 o2 i _ _ _
          (updatePositionPhase_erase ctx h o1 o2 i _ _ _ _ _
            (by simp [eraseState, ExecState.mk.injEq, htr]))))

theorem runLoop_erase (ctx : ExecCtx)
    (h : ctx.strategy.trading_costs.slippage_random = false)
    (o1 o2 : RandomOracle) :
    ∀ (fuel i : Nat) (st1 st2 : ExecState),
      eraseState st1 = eraseState st2 →
      (runLoop ctx o1 i fuel st1).map eraseState =
      (runLoop ctx o2 i fuel st2).map eraseState := by
  intro fuel
  induction fuel with
  | zero =>
    intro i st1 st2 hs
    simp only [runLoop, Except.map]
    exact congrArg Except.ok hs
  | succ fuel ih =>
    intro i st1 st2 hs
    unfold runLoop
    have hstep := stepBar_erase ctx h o1 o2 i st1 st2 hs
    cases h1 : stepBar ctx o1 i st1 with
    | error e1 =>
      cases h2 : stepBar ctx o2 i st2 with
      | error e2 =>
        rw [h1, h2] at hstep
        simp only [Except.map] at hstep
        injection hstep with he12
        subst he12
        rfl
      | ok s2 =>
        rw [h1, h2] at hstep
        simp only [Except.map] at hstep
        exact Except.noConfusion hstep
    | ok s1 =>
      cases h2 : stepBar ctx o2 i st2 with
      | error e2 =>
        rw [h1, h2] at hstep
        simp only [Except.map] at hstep
        exact Except.noConfusion hstep
      | ok s2 =>
        rw [h1, h2] at hstep
        simp only [Except.map] at hstep
        injection hstep with hs12
        exact ih (i + 1) s1 s2 hs12

theorem finishRun_erase (candles : List Candle)
    (instrument : InstrumentConfig) (strategy : Strategy)
    (config : BacktestConfig)
    (h : strategy.trading_costs.slippage_random = false)
    (o1 o2 : RandomOracle) (s1 s2 : ExecState)
    (hs : eraseState s1 = eraseState s2) :
    eraseResults (finishRun candles instrument strategy config o1 s1) =
    eraseResults (finishRun candles instrument strategy config o2 s2) := by
  obtain ⟨e1, pk1, po1, tr1, ec1, dc1, sc1, d1, cd1, rd1⟩ := s1
  obtain ⟨e2, pk2, po2, tr2, ec2, dc2, sc2, d2, cd2, rd2⟩ := s2
  simp only [eraseState, ExecState.mk.injEq] at hs
  obtain ⟨he, hpk, hpo, htr, hec, hdc, hsc, hd, hcd, hrd⟩ := hs
  subst he; subst hpk; subst hpo; subst hec; subst hdc; subst hsc
  subst hd; subst hcd; subst hrd
  have hret : tr1.map (fun t => t.pnl) = tr2.map (fun t => t.pnl) := by
    have h2 := congrArg (List.map (fun t => t.pnl)) htr
    simpa [List.map_map, Function.comp, eraseTradeId] using h2
  cases po1 with
  | none =>
    simp [finishRun, eraseResults, BacktestResults.mk.injEq, htr, hret]
  | some pos =>
    simp [finishRun, eraseResults, BacktestResults.mk.injEq,
      List.map_append, htr, hret, close_position_erase h,
      close_position_pnl_const h]

/-- C1: corrected determinism.  With slippage_random disabled, two runs of
run_backtest on the same inputs agree on everything except the randomly
generated per-trade uuids: erasing the id fields makes the outcomes equal
for ANY two assignments of the random draws.  Bit-identical equality
including ids is false, and so is equality of fills under slippage_random
(see the counterexample). -/
theorem run_backtest_deterministic_modulo_ids (candles : List Candle)
    (sub_bars : SubBarData) (strategy : Strategy) (config : BacktestConfig)
    (instrument : InstrumentConfig) (cancel_flag : Bool)
    (o1 o2 : RandomOracle)
    (h : strategy.trading_costs.slippage_random = false) :
    eraseResultIds (run_backtest candles sub_bars strategy config instrument
      cancel_flag o1) =
    eraseResultIds (run_backtest candles sub_bars strategy config instrument
      cancel_flag o2) := by
  simp only [run_backtest]
  split
  · rfl
  · split
    · rfl
    · split
      · rename_i e1 heq1
        split
        · rename_i e2 heq2
          have hloop : (Except.error e1 :
                Except AppError ExecState).map eraseState =
              (Except.error e2 : Except AppError ExecState).map eraseState := by
            rw [← heq1, ← heq2]
            exact runLoop_erase _ h o1 o2 _ _ _ _ rfl
          simp only [Except.map] at hloop
          injection hloop with he12
          subst he12
          rfl
        · rename_i s2 heq2
          have hloop : (Except.error e1 :
                Except AppError ExecState).map eraseState =
              (Except.ok s2 : Except AppError ExecState).map eraseState := by
            rw [← heq1, ← heq2]
            exact runLoop_erase _ h o1 o2 _ _ _ _ rfl
          simp only [Except.map] at hloop
          exact Except.noConfusion hloop
      · rename_i s1 heq1
        split
        · rename_i e2 heq2
          have hloop : (Except.ok s1 :
                Except AppError ExecState).map eraseState =
              (Except.error e2 : Except AppError ExecState).map eraseState := by
            rw [← heq1, ← heq2]
            exact runLoop_erase _ h o1 o2 _ _ _ _ rfl
          simp only [Except.map] at hloop
          exact Except.noConfusion hloop
        · rename_i s2 heq2
          have hloop : (Except.ok s1 :
                Except AppError ExecState).map eraseState =
              (Except.ok s2 : Except AppError ExecState).map eraseState := by
            rw [← heq1, ← heq2]
            exact runLoop_erase _ h o1 o2 _ _ _ _ rfl
          simp only [Except.map] at hloop
          injection hloop with hs12
          simp only [eraseResultIds, Except.map]
          exact congrArg Except.ok
            (finishRun_erase candles instrument strategy config h o1 o2
              s1 s2 hs12)

set_option maxRecDepth 100000 in
/-- C1 counterexample: two runs on the same inputs under different random
draws differ.  With random slippage enabled the entry fill depends on the
rand::random draw (110 with factor 1 against 100 with factor 0), and even
with every cost disabled the Uuid::new_v4 id stamped on the closed trade
differs, so the results are not bit-identical. -/
theorem run_backtest_nondeterminism_counterexample :
    run_backtest fxCandles3 .none fxStratRand fxCfg fxInstr false fxOracle0 ≠
      run_backtest fxCandles3 .none fxStratRand fxCfg fxInstr false
        fxOracle1 ∧
    run_backtest fxCandles3 .none fxStrat fxCfg fxInstr false fxOracle0 ≠
      run_backtest fxCandles3 .none fxStrat fxCfg fxInstr false fxOracle1 := by
  constructor
  · with_unfolding_all decide
  · with_unfolding_all decide

set_option maxRecDepth 100000 in
/-- C1 witness: the always-long no-cost strategy has slippage_random
disabled, and its two oracle runs agree after erasing the trade uuids,
instantiating run_backtest_deterministic_modulo_ids. -/
theorem run_backtest_deterministic_modulo_ids_witness :
    fxStrat.trading_costs.slippage_random = false ∧
    eraseResultIds (run_backtest fxCandles3 .none fxStrat fxCfg fxInstr false
        fxOracle0) =
      eraseResultIds (run_backtest fxCandles3 .none fxStrat fxCfg fxInstr
        false fxOracle1) :=
  ⟨by with_unfolding_all decide,
   run_backtest_deterministic_modulo_ids _ _ _ _ _ _ _ _
     (by with_unfolding_all decide)⟩

end Backtester
